import Mathlib

/-!
# Verification of `src/utils/stellar_lib.js` (`makePayment`)

The module exports one function, `makePayment(destinationId, sourceKeys, amount, offerId)`,
which returns a promise.  The promise chain has three asynchronous waits
(`server.loadAccount(destinationId)`, `server.loadAccount(sourceKeys.publicKey())`,
`server.submitTransaction(transaction)`); between two waits JavaScript runs a callback to
completion.  The embedding below has one Lean function per callback of the chain
(a *turn*), a sequential driver `makePayment` that asks a `Server` for each reply, and
a scheduler `runTicks` that interleaves the turns of several calls over the one
module-level variable `transaction` and keeps a trace of the events of each call.
`makePayment_eq_solo` shows that the sequential driver is the scheduler with one call
in flight.

External collaborators (the Stellar SDK and the Horizon server) are parameters:
`Sdk` says when the SDK constructors throw and how a signature is computed, `Server`
is an arbitrary deterministic state machine answering requests.  A collaborator call
ends in one of four ways (`Reply`): its promise is fulfilled, its promise is rejected,
the call throws before returning a promise, or the promise never settles.
-/

namespace StellarLib

/-! ## Values -/

/-- Classes of thrown values that the chain can observe.  `notFoundError` is
`StellarSdk.NotFoundError`, the class named in the filtered `.catch`. -/
inductive ErrorClass where
  | error
  | typeError
  | networkError
  | notFoundError
  | badRequestError
  | badResponseError
  | other (name : String)
  deriving DecidableEq, Repr

/-- A thrown or rejected JavaScript value. -/
structure JsError where
  cls : ErrorClass
  message : String
  deriving DecidableEq, Repr

/-- The test `error instanceof StellarSdk.NotFoundError` of the filtered catch. -/
def JsError.isNotFoundError (e : JsError) : Bool :=
  decide (e.cls = ErrorClass.notFoundError)

/-- The value `new Error('The destination account does not exist!')` (source line 20). -/
def destinationMissing : JsError :=
  { cls := ErrorClass.error, message := "The destination account does not exist!" }

/-- The value read through an unassigned variable: `undefined.sign(...)` throws a TypeError. -/
def undefinedTransaction : JsError :=
  { cls := ErrorClass.typeError, message := "Cannot read property of undefined" }

/-- A key pair; `publicKey` is what `sourceKeys.publicKey()` returns. -/
structure Keypair where
  publicKey : String
  secret : String
  deriving DecidableEq, Repr

/-- The account record with which `server.loadAccount` fulfils. -/
structure Account where
  accountId : String
  sequence : Nat
  deriving DecidableEq, Repr

/-- Assets; `native` is `StellarSdk.Asset.native()`. -/
inductive Asset where
  | native
  | issued (code : String) (issuer : String)
  deriving DecidableEq, Repr

/-- The option object passed to `StellarSdk.Operation.payment` (source lines 29-36). -/
structure PaymentOptions where
  destination : String
  asset : Asset
  amount : String
  deriving DecidableEq, Repr

/-- Operations of a transaction; the source only ever creates `payment`. -/
inductive Operation where
  | payment (opts : PaymentOptions)
  | otherOperation (name : String)
  deriving DecidableEq, Repr

/-- Memos; `text s` is `StellarSdk.Memo.text(s)`. -/
inductive Memo where
  | none
  | text (s : String)
  deriving DecidableEq, Repr

/-- One signature on a transaction: who signed (`hint`, the signer's public key) and
the signature bytes. -/
structure DecoratedSignature where
  hint : String
  signature : String
  deriving DecidableEq, Repr

/-- A built transaction. -/
structure Transaction where
  source : String
  sequence : Nat
  operations : List Operation
  memo : Memo
  signatures : List DecoratedSignature
  deriving DecidableEq, Repr

/-- The state of a `StellarSdk.TransactionBuilder` when `.build()` is called. -/
structure TransactionBuilder where
  source : Account
  operations : List Operation
  memo : Memo
  deriving DecidableEq, Repr

/-- The result of `.build()`: the builder uses the sequence number following the one of
the source account, and the transaction starts without signatures. -/
def TransactionBuilder.build (b : TransactionBuilder) : Transaction :=
  { source := b.source.accountId
    sequence := b.source.sequence + 1
    operations := b.operations
    memo := b.memo
    signatures := [] }

/-- What the network answers on an accepted submission. -/
structure SubmitResult where
  hash : String
  ledger : Nat
  deriving DecidableEq, Repr

/-- The external SDK, as far as the chain depends on it: each constructor may throw
(`some e`) and `signature` is the signature a key pair produces for a transaction. -/
structure Sdk where
  paymentError : PaymentOptions → Option JsError
  memoTextError : String → Option JsError
  buildError : TransactionBuilder → Option JsError
  signError : Transaction → Keypair → Option JsError
  signature : Transaction → Keypair → String

/-- The effect of a successful `transaction.sign(keys)`: one signature is appended. -/
def Transaction.sign (sdk : Sdk) (t : Transaction) (keys : Keypair) : Transaction :=
  { t with signatures :=
      t.signatures ++ [{ hint := keys.publicKey, signature := sdk.signature t keys }] }

/-- How a call to a collaborator ends: its promise is fulfilled, its promise is
rejected, the call itself throws before it returns a promise, or the promise never
settles. -/
inductive Reply (α : Type) where
  | fulfilled (value : α)
  | rejected (error : JsError)
  | thrown (error : JsError)
  | never
  deriving DecidableEq, Repr

/-- Values with which the promise of `makePayment` could be resolved. -/
inductive JsValue where
  | string (s : String)
  | response (r : SubmitResult)
  deriving DecidableEq, Repr

/-- State of the promise returned by `makePayment`. -/
inductive Outcome where
  | pending
  | resolved (value : JsValue)
  | rejected (error : JsError)
  deriving DecidableEq, Repr

/-- Calls to collaborators, in the order they are made. -/
inductive Call where
  | loadAccount (id : String)
  | build (builder : TransactionBuilder)
  | sign (tx : Transaction) (keys : Keypair)
  | submitTransaction (tx : Transaction)
  deriving DecidableEq, Repr

/-- Lines written to the console. -/
inductive ConsoleLine where
  | log (text : String) (result : SubmitResult)
  | error (text : String) (error : JsError)
  deriving DecidableEq, Repr

/-- Process-wide state of the module: the variable `transaction` of source line 6
(`none` while unassigned) and the console. -/
structure Module where
  transaction : Option Transaction
  console : List ConsoleLine
  deriving DecidableEq, Repr

/-- The arguments of one `makePayment` call. -/
structure Args where
  destinationId : String
  sourceKeys : Keypair
  amount : String
  offerId : String
  deriving DecidableEq, Repr

/-- Where one call stands: which promise it waits for, or how it settled. -/
inductive Phase where
  | awaitingDestination
  | awaitingSender
  | awaitingSubmit (tx : Transaction)
  | settled (outcome : Outcome)
  deriving DecidableEq, Repr

/-- What one run-to-completion callback leaves behind: the module state, the phase of
the call, and the collaborator calls made during the callback. -/
structure Turn where
  module : Module
  phase : Phase
  calls : List Call
  deriving DecidableEq, Repr

/-! ## The callbacks of the promise chain -/

/-- The final `.catch(function(error) ...)` (source lines 50-56): log and reject; the
resubmission is commented out. -/
def catchAll (error : JsError) (m : Module) (calls : List Call) : Turn :=
  { module := { m with console := m.console ++ [ConsoleLine.error "Something went wrong!" error] }
    phase := Phase.settled (Outcome.rejected error)
    calls := calls }

/-- The executor up to the first wait: `server.loadAccount(destinationId)` (line 17).
How that call ends, a throw of the call itself included, is the reply handled by
`destinationLoaded`. -/
def start (a : Args) (m : Module) : Turn :=
  { module := m
    phase := Phase.awaitingDestination
    calls := [Call.loadAccount a.destinationId] }

/-- The callbacks that run when the destination load settles (lines 19-25).
`.catch(StellarSdk.NotFoundError, f)` is the filtered catch of the promise library of
the SDK: `f` runs only for a rejection that is an instance of the class, and what `f`
throws replaces the rejection.  Any rejection skips the `.then` callbacks and reaches the
final catch; on fulfilment the sender account is requested.  A promise that never
settles runs no callback.  When the call of line 17 itself throws, no chain exists yet:
the call sits in the executor, the Promise constructor rejects with the thrown value,
and the final catch does not run, so nothing is logged. -/
def destinationLoaded (a : Args) (r : Reply Account) (m : Module) : Turn :=
  match r with
  | Reply.never => { module := m, phase := Phase.awaitingDestination, calls := [] }
  | Reply.thrown error =>
      { module := m, phase := Phase.settled (Outcome.rejected error), calls := [] }
  | Reply.rejected error =>
      if error.isNotFoundError then catchAll destinationMissing m []
      else catchAll error m []
  | Reply.fulfilled _ =>
      { module := m
        phase := Phase.awaitingSender
        calls := [Call.loadAccount a.sourceKeys.publicKey] }

/-- The builder state of source lines 28-39 at the moment `.build()` is called: the
loaded sender account, one native-asset payment, the offer id as text memo. -/
def paymentBuilder (a : Args) (sourceAccount : Account) : TransactionBuilder :=
  { source := sourceAccount
    operations :=
      [Operation.payment
        { destination := a.destinationId, asset := Asset.native, amount := a.amount }]
    memo := Memo.text a.offerId }

/-- The callback that runs when the sender load settles (lines 26-45): build, assign
the module-level variable, sign through that variable, submit what the variable holds.
A throw of the load call of line 24 happens inside a `.then` callback, so it reaches the
final catch like a rejection. -/
def senderLoaded (sdk : Sdk) (a : Args) (r : Reply Account) (m : Module) : Turn :=
  match r with
  | Reply.never => { module := m, phase := Phase.awaitingSender, calls := [] }
  | Reply.rejected error => catchAll error m []
  | Reply.thrown error => catchAll error m []
  | Reply.fulfilled sourceAccount =>
      match sdk.paymentError
          { destination := a.destinationId, asset := Asset.native, amount := a.amount } with
      | some e => catchAll e m []
      | none =>
        match sdk.memoTextError a.offerId with
        | some e => catchAll e m []
        | none =>
          let builder := paymentBuilder a sourceAccount
          match sdk.buildError builder with
          | some e => catchAll e m [Call.build builder]
          | none =>
            -- transaction = ... .build();
            let m1 : Module := { m with transaction := some builder.build }
            -- transaction.sign(sourceKeys);
            match m1.transaction with
            | none => catchAll undefinedTransaction m1 [Call.build builder]
            | some t =>
              match sdk.signError t a.sourceKeys with
              | some e => catchAll e m1 [Call.build builder, Call.sign t a.sourceKeys]
              | none =>
                let m2 : Module := { m1 with transaction := some (t.sign sdk a.sourceKeys) }
                -- return server.submitTransaction(transaction);
                match m2.transaction with
                | none =>
                    catchAll undefinedTransaction m2
                      [Call.build builder, Call.sign t a.sourceKeys]
                | some signed =>
                    { module := m2
                      phase := Phase.awaitingSubmit signed
                      calls := [Call.build builder, Call.sign t a.sourceKeys,
                                Call.submitTransaction signed] }

/-- The callbacks that run when the submission settles (lines 46-56).  A throw of the
submission call of line 44 happens inside a `.then` callback and reaches the final
catch. -/
def submitSettled (tx : Transaction) (r : Reply SubmitResult) (m : Module) : Turn :=
  match r with
  | Reply.never => { module := m, phase := Phase.awaitingSubmit tx, calls := [] }
  | Reply.thrown error => catchAll error m []
  | Reply.fulfilled result =>
      { module := { m with console := m.console ++ [ConsoleLine.log "Success! Results:" result] }
        phase := Phase.settled (Outcome.resolved (JsValue.string "success"))
        calls := [] }
  | Reply.rejected error => catchAll error m []

/-! ## One call against a server -/

/-- The Horizon server as a deterministic state machine over an arbitrary state. -/
structure Server (σ : Type) where
  loadAccount : σ → String → Reply Account × σ
  submitTransaction : σ → Transaction → Reply SubmitResult × σ

/-- Everything a call can change: the server, the module, and the trace of calls. -/
structure World (σ : Type) where
  net : σ
  module : Module
  calls : List Call

/-- The promise state that a phase stands for. -/
def Phase.outcome : Phase → Outcome
  | Phase.settled o => o
  | _ => Outcome.pending

/-- One call of `makePayment`, run until its promise settles or waits forever. -/
def makePayment {σ : Type} (sdk : Sdk) (server : Server σ) (destinationId : String)
    (sourceKeys : Keypair) (amount : String) (offerId : String) (w : World σ) :
    World σ × Outcome :=
  let a : Args :=
    { destinationId := destinationId, sourceKeys := sourceKeys
      amount := amount, offerId := offerId }
  let t0 := start a w.module
  let r1 := server.loadAccount w.net a.destinationId
  let t1 := destinationLoaded a r1.1 t0.module
  match t1.phase with
  | Phase.awaitingSender =>
      let r2 := server.loadAccount r1.2 a.sourceKeys.publicKey
      let t2 := senderLoaded sdk a r2.1 t1.module
      match t2.phase with
      | Phase.awaitingSubmit tx =>
          let r3 := server.submitTransaction r2.2 tx
          let t3 := submitSettled tx r3.1 t2.module
          ({ net := r3.2, module := t3.module
             calls := w.calls ++ t0.calls ++ t1.calls ++ t2.calls ++ t3.calls },
           t3.phase.outcome)
      | p =>
          ({ net := r2.2, module := t2.module
             calls := w.calls ++ t0.calls ++ t1.calls ++ t2.calls },
           p.outcome)
  | p =>
      ({ net := r1.2, module := t1.module, calls := w.calls ++ t0.calls ++ t1.calls },
       p.outcome)

/-! ## Several calls interleaved -/

/-- One call in flight: its arguments and where it stands. -/
structure CallState where
  args : Args
  phase : Phase
  deriving DecidableEq, Repr

/-- What can happen next in the process: a caller invokes `makePayment`, or a pending
promise of call `i` settles and its callbacks run to completion. -/
inductive Tick where
  | invoke (a : Args)
  | account (i : Nat) (r : Reply Account)
  | submitted (i : Nat) (r : Reply SubmitResult)
  deriving DecidableEq, Repr

/-- What happens to one call, as the event loop sees it: the call makes a collaborator
call, a load of the call ends with a reply and its callbacks run, or its submission
ends with a reply and its callbacks run. -/
inductive Event where
  | made (call : Call)
  | account (r : Reply Account)
  | submitted (r : Reply SubmitResult)
  deriving DecidableEq, Repr

/-- The process: the module state shared by all calls, the calls in flight, and the
trace of events, each tagged with the index of the call it belongs to. -/
structure System where
  module : Module
  running : List CallState
  trace : List (Nat × Event)
  deriving DecidableEq, Repr

/-- The process before any call. -/
def System.initial (m : Module) : System :=
  { module := m, running := [], trace := [] }

/-- Whether a reply is the one that never comes. -/
def Reply.isNever {α : Type} : Reply α → Bool
  | Reply.never => true
  | _ => false

/-- Record a turn of call `i` that was set off by the event `got`. -/
def System.record (s : System) (i : Nat) (a : Args) (got : Event) (t : Turn) : System :=
  { module := t.module
    running := s.running.set i { args := a, phase := t.phase }
    trace := s.trace ++ (got :: t.calls.map Event.made).map (fun e => (i, e)) }

/-- One tick of the event loop.  An invocation runs the executor of a new call, which
gets the next index.  A reply runs the callbacks of the call that waits for it, to
completion; a reply that no callback waits for, and the reply that never comes, change
nothing.  (A throw of the load call of line 17 is delivered like a reply: the executor
does nothing else before it.) -/
def tick (sdk : Sdk) (s : System) (k : Tick) : System :=
  match k with
  | Tick.invoke a =>
      let t := start a s.module
      { module := t.module
        running := s.running ++ [{ args := a, phase := t.phase }]
        trace := s.trace ++ (t.calls.map Event.made).map (fun e => (s.running.length, e)) }
  | Tick.account i r =>
      if r.isNever then s
      else
        match s.running[i]? with
        | none => s
        | some c =>
          match c.phase with
          | Phase.awaitingDestination =>
              s.record i c.args (Event.account r) (destinationLoaded c.args r s.module)
          | Phase.awaitingSender =>
              s.record i c.args (Event.account r) (senderLoaded sdk c.args r s.module)
          | _ => s
  | Tick.submitted i r =>
      if r.isNever then s
      else
        match s.running[i]? with
        | none => s
        | some c =>
          match c.phase with
          | Phase.awaitingSubmit tx =>
              s.record i c.args (Event.submitted r) (submitSettled tx r s.module)
          | _ => s

/-- Run a schedule. -/
def runTicks (sdk : Sdk) (s : System) (ticks : List Tick) : System :=
  ticks.foldl (tick sdk) s

/-! ## Vocabulary of the statements -/

/-- The SDK throws nowhere while the payment from `sourceAccount` is built and signed. -/
def SdkAccepts (sdk : Sdk) (a : Args) (sourceAccount : Account) : Prop :=
  sdk.paymentError
      { destination := a.destinationId, asset := Asset.native, amount := a.amount } = none ∧
  sdk.memoTextError a.offerId = none ∧
  sdk.buildError (paymentBuilder a sourceAccount) = none ∧
  sdk.signError (paymentBuilder a sourceAccount).build a.sourceKeys = none

/-- The transaction that the sender-load callback hands to `server.submitTransaction`
when the SDK throws nowhere: the built payment, signed with the keys of the call. -/
def signedPayment (sdk : Sdk) (a : Args) (sourceAccount : Account) : Transaction :=
  (paymentBuilder a sourceAccount).build.sign sdk a.sourceKeys

/-- The arguments of an invocation tick. -/
def Tick.invoked : Tick → Option Args
  | Tick.invoke a => some a
  | _ => none

/-- The arguments with which call `i` of a schedule was invoked: calls are numbered in
the order of their invocation. -/
def invokedWith (ticks : List Tick) (i : Nat) : Option Args :=
  (ticks.filterMap Tick.invoked)[i]?

/-- The events of call `i` in a trace, in their order. -/
def callEvents (trace : List (Nat × Event)) (i : Nat) : List Event :=
  (trace.filter (fun e => decide (e.1 = i))).map (fun e => e.2)

/-- The events of a call up to its submission, for a destination reply `d` and a sender
reply `sourceAccount`: load the destination, get `d`, load the sender, get
`sourceAccount`, build on it, sign the build with the keys of the call, submit the
build so signed. -/
def pathToSubmit (sdk : Sdk) (a : Args) (d sourceAccount : Account) : List Event :=
  [Event.made (Call.loadAccount a.destinationId),
   Event.account (Reply.fulfilled d),
   Event.made (Call.loadAccount a.sourceKeys.publicKey),
   Event.account (Reply.fulfilled sourceAccount),
   Event.made (Call.build (paymentBuilder a sourceAccount)),
   Event.made (Call.sign (paymentBuilder a sourceAccount).build a.sourceKeys),
   Event.made (Call.submitTransaction (signedPayment sdk a sourceAccount))]

/-- What the module-level variable holds after a list of events, when it held `init`
before: every signing is preceded, in the same callback, by the assignment of the
transaction being signed, and signs it in place unless it throws; nothing else writes. -/
def lastWritten (sdk : Sdk) (init : Option Transaction) (events : List Event) :
    Option Transaction :=
  events.foldl
    (fun v e =>
      match e with
      | Event.made (Call.sign t k) =>
          match sdk.signError t k with
          | none => some (t.sign sdk k)
          | some _ => some t
      | _ => v)
    init

/-- The events of a call that has settled. -/
def Finished (sdk : Sdk) (a : Args) (es : List Event) : Prop :=
  (∃ r, es = [Event.made (Call.loadAccount a.destinationId), Event.account r]) ∨
  (∃ d r, es = [Event.made (Call.loadAccount a.destinationId),
                Event.account (Reply.fulfilled d),
                Event.made (Call.loadAccount a.sourceKeys.publicKey),
                Event.account r]) ∨
  (∃ d sourceAccount, es = (pathToSubmit sdk a d sourceAccount).take 5) ∨
  (∃ d sourceAccount,
      sdk.paymentError
        { destination := a.destinationId, asset := Asset.native, amount := a.amount } = none ∧
      sdk.memoTextError a.offerId = none ∧
      sdk.buildError (paymentBuilder a sourceAccount) = none ∧
      es = (pathToSubmit sdk a d sourceAccount).take 6) ∨
  (∃ d sourceAccount r, SdkAccepts sdk a sourceAccount ∧
      es = pathToSubmit sdk a d sourceAccount ++ [Event.submitted r])

/-- The events of a call in each phase. -/
def Story (sdk : Sdk) (a : Args) : Phase → List Event → Prop
  | Phase.awaitingDestination, es => es = [Event.made (Call.loadAccount a.destinationId)]
  | Phase.awaitingSender, es =>
      ∃ d, es = [Event.made (Call.loadAccount a.destinationId),
                 Event.account (Reply.fulfilled d),
                 Event.made (Call.loadAccount a.sourceKeys.publicKey)]
  | Phase.awaitingSubmit tx, es =>
      ∃ d sourceAccount, SdkAccepts sdk a sourceAccount ∧
        tx = signedPayment sdk a sourceAccount ∧ es = pathToSubmit sdk a d sourceAccount
  | Phase.settled _, es => Finished sdk a es

/-- The invariant of the event loop, for a process started with the module state `m`:
the calls in flight carry the arguments of their invocations, the events of each call
tell the story of its phase, every event belongs to a call in flight, every reply in
the trace comes from the schedule, and the module-level variable holds what the
signings of the trace wrote last. -/
def Coherent (sdk : Sdk) (m : Module) (ticks : List Tick) (s : System) : Prop :=
  s.running.map (fun c => c.args) = ticks.filterMap Tick.invoked ∧
  (∀ i c, s.running[i]? = some c → Story sdk c.args c.phase (callEvents s.trace i)) ∧
  (∀ e, e ∈ s.trace → e.1 < s.running.length) ∧
  (∀ i r, (i, Event.account r) ∈ s.trace → Tick.account i r ∈ ticks) ∧
  s.module.transaction = lastWritten sdk m.transaction (s.trace.map (fun e => e.2))

/-- The collaborator call behind an event, when the event is one. -/
def Event.call : Event → Option Call
  | Event.made c => some c
  | _ => none

/-- The schedule of a call that runs alone against a server: the invocation, then the
replies of the server to the requests of the call, each asked in the state that the
reply before left. -/
def soloSchedule {σ : Type} (sdk : Sdk) (server : Server σ) (a : Args) (net : σ) :
    List Tick :=
  Tick.invoke a :: Tick.account 0 (server.loadAccount net a.destinationId).1 ::
    match (server.loadAccount net a.destinationId).1 with
    | Reply.fulfilled _ =>
        Tick.account 0
            (server.loadAccount (server.loadAccount net a.destinationId).2
              a.sourceKeys.publicKey).1 ::
          match (server.loadAccount (server.loadAccount net a.destinationId).2
              a.sourceKeys.publicKey).1 with
          | Reply.fulfilled sourceAccount =>
              [Tick.submitted 0
                (server.submitTransaction
                  (server.loadAccount (server.loadAccount net a.destinationId).2
                    a.sourceKeys.publicKey).2
                  (signedPayment sdk a sourceAccount)).1]
          | _ => []
    | _ => []

/-- Whether a collaborator call is a submission. -/
def Call.isSubmit : Call → Bool
  | Call.submitTransaction _ => true
  | _ => false

/-- Whether a collaborator call is an account load. -/
def Call.isLoad : Call → Bool
  | Call.loadAccount _ => true
  | _ => false

/-! ## Concrete collaborators used to instantiate the statements -/

/-- An SDK that never throws; the signature names the secret and the sequence number. -/
def permissiveSdk : Sdk :=
  { paymentError := fun _ => none
    memoTextError := fun _ => none
    buildError := fun _ => none
    signError := fun _ _ => none
    signature := fun t k => k.secret ++ "/" ++ toString t.sequence }

/-- An SDK whose `Memo.text` throws on every input. -/
def strictMemoSdk : Sdk :=
  { permissiveSdk with
    memoTextError := fun _ =>
      some { cls := ErrorClass.error, message := "Expects string, array or buffer. Max 28 bytes" } }

/-- A server that answers by position: the first load, every later load, every
submission.  Its state counts the requests answered. -/
def scriptedServer (first second : Reply Account) (third : Reply SubmitResult) : Server Nat :=
  { loadAccount := fun n _ => (if n = 0 then first else second, n + 1)
    submitTransaction := fun n _ => (third, n + 1) }

/-- A ledger: the accounts with their current sequence numbers, and the number of
transactions applied so far. -/
structure Ledger where
  accounts : List Account
  applied : Nat
  deriving DecidableEq, Repr

/-- The current sequence number of an account on the ledger (0 when absent). -/
def Ledger.sequenceOf (l : Ledger) (id : String) : Nat :=
  match l.accounts.find? (fun a => decide (a.accountId = id)) with
  | some a => a.sequence
  | none => 0

/-- A server over a ledger on which the sequence number of an account is advanced by
each applied transaction: a load reports the current sequence number, a submission is
applied when the source exists, the sequence number is the next one and the transaction
is signed, and is refused otherwise. -/
def ledgerServer : Server Ledger :=
  { loadAccount := fun l id =>
      match l.accounts.find? (fun a => decide (a.accountId = id)) with
      | some a => (Reply.fulfilled { accountId := id, sequence := a.sequence }, l)
      | none =>
          (Reply.rejected { cls := ErrorClass.notFoundError, message := "Not Found" }, l)
    submitTransaction := fun l tx =>
      if l.accounts.any (fun a => decide (a.accountId = tx.source)) ∧
          tx.sequence = l.sequenceOf tx.source + 1 ∧ tx.signatures ≠ [] then
        (Reply.fulfilled { hash := "tx", ledger := l.applied + 1 },
         { accounts := l.accounts.map (fun a =>
             if a.accountId = tx.source then { a with sequence := tx.sequence } else a)
           applied := l.applied + 1 })
      else
        (Reply.rejected { cls := ErrorClass.badRequestError, message := "tx_failed" }, l) }

/-- A ledger with a destination account and a funded sender. -/
def sampleLedger : Ledger :=
  { accounts := [{ accountId := "DEST1", sequence := 7 }, { accountId := "SENDER", sequence := 41 }]
    applied := 0 }

/-- The key pair of the sender on `sampleLedger`. -/
def sampleKeys : Keypair :=
  { publicKey := "SENDER", secret := "S3CR3T" }

/-- A fresh process over a given server state: nothing built, nothing logged. -/
def freshWorld {σ : Type} (net : σ) : World σ :=
  { net := net, module := { transaction := none, console := [] }, calls := [] }

/-- A transaction left in the module-level variable by some earlier call. -/
def staleTransaction : Transaction :=
  { source := "OLD", sequence := 3, operations := [], memo := Memo.none, signatures := [] }

/-- A process in which an earlier call has left `staleTransaction` behind. -/
def staleWorld {σ : Type} (net : σ) : World σ :=
  { net := net, module := { transaction := some staleTransaction, console := [] }, calls := [] }

/-- A rejection with `StellarSdk.NotFoundError`. -/
def notFound : JsError :=
  { cls := ErrorClass.notFoundError, message := "Not Found" }

/-- A timeout of the HTTP client: no response body. -/
def timedOut : JsError :=
  { cls := ErrorClass.other "ECONNABORTED", message := "timeout of 60000ms exceeded" }

/-- The key pair of a second sender. -/
def otherKeys : Keypair :=
  { publicKey := "BUYER2", secret := "0TH3R" }

/-- Two calls in flight at once: call 0 pays "DEST1" from `sampleKeys`, call 1 pays
"DEST2" from `otherKeys`; the sender account of call 1 arrives before that of call 0. -/
def sampleSchedule : List Tick :=
  [Tick.invoke { destinationId := "DEST1", sourceKeys := sampleKeys
                 amount := "100", offerId := "offer-42" },
   Tick.invoke { destinationId := "DEST2", sourceKeys := otherKeys
                 amount := "7", offerId := "offer-43" },
   Tick.account 0 (Reply.fulfilled { accountId := "DEST1", sequence := 7 }),
   Tick.account 1 (Reply.fulfilled { accountId := "DEST2", sequence := 9 }),
   Tick.account 1 (Reply.fulfilled { accountId := "BUYER2", sequence := 12 }),
   Tick.account 0 (Reply.fulfilled { accountId := "SENDER", sequence := 41 }),
   Tick.submitted 1 (Reply.rejected timedOut),
   Tick.submitted 0 (Reply.fulfilled { hash := "tx", ledger := 1 })]

/-! ## Theorems -/

/-- The sender-load callback when the SDK throws nowhere: the built and signed payment
is left in the module-level variable and handed to the server. -/
theorem senderLoaded_of_accepts (sdk : Sdk) (a : Args) (sourceAccount : Account) (m : Module)
    (h : SdkAccepts sdk a sourceAccount) :
    senderLoaded sdk a (Reply.fulfilled sourceAccount) m
      = { module := { m with transaction := some (signedPayment sdk a sourceAccount) }
          phase := Phase.awaitingSubmit (signedPayment sdk a sourceAccount)
          calls := [Call.build (paymentBuilder a sourceAccount),
                    Call.sign (paymentBuilder a sourceAccount).build a.sourceKeys,
                    Call.submitTransaction (signedPayment sdk a sourceAccount)] } := by
  obtain ⟨hp, hm, hb, hs⟩ := h
  simp [senderLoaded, hp, hm, hb, hs, signedPayment]

/-- A call whose loads are fulfilled and whose SDK throws nowhere is decided by the
submission callback. -/
theorem makePayment_of_accepts {σ : Type} (sdk : Sdk) (server : Server σ)
    (destinationId : String) (sourceKeys : Keypair) (amount offerId : String)
    (w : World σ) (destAccount sourceAccount : Account)
    (hdest : (server.loadAccount w.net destinationId).1 = Reply.fulfilled destAccount)
    (hsrc : (server.loadAccount (server.loadAccount w.net destinationId).2
              sourceKeys.publicKey).1 = Reply.fulfilled sourceAccount)
    (hsdk : SdkAccepts sdk
              { destinationId := destinationId, sourceKeys := sourceKeys
                amount := amount, offerId := offerId } sourceAccount) :
    makePayment sdk server destinationId sourceKeys amount offerId w
      = ({ net := (server.submitTransaction
                    (server.loadAccount (server.loadAccount w.net destinationId).2
                      sourceKeys.publicKey).2
                    (signedPayment sdk
                      { destinationId := destinationId, sourceKeys := sourceKeys
                        amount := amount, offerId := offerId } sourceAccount)).2
           module := (submitSettled
                    (signedPayment sdk
                      { destinationId := destinationId, sourceKeys := sourceKeys
                        amount := amount, offerId := offerId } sourceAccount)
                    (server.submitTransaction
                      (server.loadAccount (server.loadAccount w.net destinationId).2
                        sourceKeys.publicKey).2
                      (signedPayment sdk
                        { destinationId := destinationId, sourceKeys := sourceKeys
                          amount := amount, offerId := offerId } sourceAccount)).1
                    { w.module with transaction := some (signedPayment sdk
                      { destinationId := destinationId, sourceKeys := sourceKeys
                        amount := amount, offerId := offerId } sourceAccount) }).module
           calls := w.calls ++
              [Call.loadAccount destinationId, Call.loadAccount sourceKeys.publicKey,
               Call.build (paymentBuilder
                  { destinationId := destinationId, sourceKeys := sourceKeys
                    amount := amount, offerId := offerId } sourceAccount),
               Call.sign (paymentBuilder
                  { destinationId := destinationId, sourceKeys := sourceKeys
                    amount := amount, offerId := offerId } sourceAccount).build sourceKeys,
               Call.submitTransaction (signedPayment sdk
                  { destinationId := destinationId, sourceKeys := sourceKeys
                    amount := amount, offerId := offerId } sourceAccount)] },
         (submitSettled
            (signedPayment sdk
              { destinationId := destinationId, sourceKeys := sourceKeys
                amount := amount, offerId := offerId } sourceAccount)
            (server.submitTransaction
              (server.loadAccount (server.loadAccount w.net destinationId).2
                sourceKeys.publicKey).2
              (signedPayment sdk
                { destinationId := destinationId, sourceKeys := sourceKeys
                  amount := amount, offerId := offerId } sourceAccount)).1
            { w.module with transaction := some (signedPayment sdk
              { destinationId := destinationId, sourceKeys := sourceKeys
                amount := amount, offerId := offerId } sourceAccount) }).phase.outcome) := by
  have hS := senderLoaded_of_accepts sdk
    { destinationId := destinationId, sourceKeys := sourceKeys
      amount := amount, offerId := offerId } sourceAccount w.module hsdk
  have hcalls : ∀ t : Turn, t.calls = []
      → w.calls ++ [Call.loadAccount destinationId] ++ [Call.loadAccount sourceKeys.publicKey]
          ++ [Call.build (paymentBuilder
                { destinationId := destinationId, sourceKeys := sourceKeys
                  amount := amount, offerId := offerId } sourceAccount),
              Call.sign (paymentBuilder
                { destinationId := destinationId, sourceKeys := sourceKeys
                  amount := amount, offerId := offerId } sourceAccount).build sourceKeys,
              Call.submitTransaction (signedPayment sdk
                { destinationId := destinationId, sourceKeys := sourceKeys
                  amount := amount, offerId := offerId } sourceAccount)] ++ t.calls
        = w.calls ++
              [Call.loadAccount destinationId, Call.loadAccount sourceKeys.publicKey,
               Call.build (paymentBuilder
                  { destinationId := destinationId, sourceKeys := sourceKeys
                    amount := amount, offerId := offerId } sourceAccount),
               Call.sign (paymentBuilder
                  { destinationId := destinationId, sourceKeys := sourceKeys
                    amount := amount, offerId := offerId } sourceAccount).build sourceKeys,
               Call.submitTransaction (signedPayment sdk
                  { destinationId := destinationId, sourceKeys := sourceKeys
                    amount := amount, offerId := offerId } sourceAccount)] := by
    intro t ht
    simp [ht]
  have hsettle : ∀ tx r m, (submitSettled tx r m).calls = [] := by
    intro tx r m
    cases r <;> simp [submitSettled, catchAll]
  simp only [makePayment, start, destinationLoaded, hdest, hsrc, hS]
  rw [hcalls _ (hsettle _ _ _)]

/-- A resolved promise comes only from the happy path: both loads fulfilled, an SDK
that threw nowhere, and an accepted submission of the signed payment. -/
theorem makePayment_resolved_inv {σ : Type} (sdk : Sdk) (server : Server σ)
    (destinationId : String) (sourceKeys : Keypair) (amount offerId : String) (w : World σ)
    (v : JsValue)
    (h : (makePayment sdk server destinationId sourceKeys amount offerId w).2
          = Outcome.resolved v) :
    ∃ destAccount sourceAccount result,
      (server.loadAccount w.net destinationId).1 = Reply.fulfilled destAccount ∧
      (server.loadAccount (server.loadAccount w.net destinationId).2
          sourceKeys.publicKey).1 = Reply.fulfilled sourceAccount ∧
      SdkAccepts sdk
        { destinationId := destinationId, sourceKeys := sourceKeys
          amount := amount, offerId := offerId } sourceAccount ∧
      (server.submitTransaction
          (server.loadAccount (server.loadAccount w.net destinationId).2
            sourceKeys.publicKey).2
          (signedPayment sdk
            { destinationId := destinationId, sourceKeys := sourceKeys
              amount := amount, offerId := offerId } sourceAccount)).1
        = Reply.fulfilled result := by
  rcases h1 : (server.loadAccount w.net destinationId).1 with a1 | e1 | x1 | _
  · rcases h2 : (server.loadAccount (server.loadAccount w.net destinationId).2
        sourceKeys.publicKey).1 with a2 | e2 | x2 | _
    · rcases hp : sdk.paymentError
          { destination := destinationId, asset := Asset.native, amount := amount } with _ | e
      · rcases hm : sdk.memoTextError offerId with _ | e
        · rcases hb : sdk.buildError
              (paymentBuilder ⟨destinationId, sourceKeys, amount, offerId⟩ a2) with _ | e
          · rcases hs : sdk.signError
                (paymentBuilder ⟨destinationId, sourceKeys, amount, offerId⟩ a2).build
                sourceKeys with _ | e
            · rw [makePayment_of_accepts sdk server destinationId sourceKeys amount offerId w
                a1 a2 h1 h2 ⟨hp, hm, hb, hs⟩] at h
              rcases h3 : (server.submitTransaction
                  (server.loadAccount (server.loadAccount w.net destinationId).2
                    sourceKeys.publicKey).2
                  (signedPayment sdk ⟨destinationId, sourceKeys, amount, offerId⟩ a2)).1
                with r | e3 | x3 | _
              · exact ⟨a1, a2, r, rfl, rfl, ⟨hp, hm, hb, hs⟩, h3⟩
              · rw [h3] at h
                simp [submitSettled, catchAll, Phase.outcome] at h
              · rw [h3] at h
                simp [submitSettled, catchAll, Phase.outcome] at h
              · rw [h3] at h
                simp [submitSettled, Phase.outcome] at h
            · simp [makePayment, start, destinationLoaded, senderLoaded, h1, h2, hp, hm, hb,
                hs, catchAll, Phase.outcome] at h
          · simp [makePayment, start, destinationLoaded, senderLoaded, h1, h2, hp, hm, hb,
              catchAll, Phase.outcome] at h
        · simp [makePayment, start, destinationLoaded, senderLoaded, h1, h2, hp, hm,
            catchAll, Phase.outcome] at h
      · simp [makePayment, start, destinationLoaded, senderLoaded, h1, h2, hp,
          catchAll, Phase.outcome] at h
    · simp [makePayment, start, destinationLoaded, senderLoaded, h1, h2,
        catchAll, Phase.outcome] at h
    · simp [makePayment, start, destinationLoaded, senderLoaded, h1, h2,
        catchAll, Phase.outcome] at h
    · simp [makePayment, start, destinationLoaded, senderLoaded, h1, h2,
        catchAll, Phase.outcome] at h
  · by_cases hnf : e1.isNotFoundError = true <;>
      simp [makePayment, start, destinationLoaded, h1, hnf, catchAll, Phase.outcome] at h
  · simp [makePayment, start, destinationLoaded, h1, Phase.outcome] at h
  · simp [makePayment, start, destinationLoaded, h1, Phase.outcome] at h

/-- On the ledger server a fulfilled load names the requested account and reports its
current sequence number. -/
theorem ledgerServer_load_sequence (l : Ledger) (id : String) (a : Account)
    (h : (ledgerServer.loadAccount l id).1 = Reply.fulfilled a) :
    a.accountId = id ∧ a.sequence = l.sequenceOf id := by
  simp only [ledgerServer, Ledger.sequenceOf] at h ⊢
  cases hf : l.accounts.find? (fun a => decide (a.accountId = id)) with
  | none => simp [hf] at h
  | some b =>
    simp [hf] at h
    subst h
    simp

/-- On the ledger server a load leaves the ledger as it is. -/
theorem ledgerServer_load_keeps (l : Ledger) (id : String) :
    (ledgerServer.loadAccount l id).2 = l := by
  simp only [ledgerServer]
  cases l.accounts.find? (fun a => decide (a.accountId = id)) <;> rfl

/-- Updating the sequence number of every account named `src` makes a lookup of `src`
report the new number, when the account exists. -/
theorem find_after_update (accounts : List Account) (src : String) (n : Nat)
    (h : accounts.any (fun a => decide (a.accountId = src)) = true) :
    ∃ b, (accounts.map (fun a =>
            if a.accountId = src then { a with sequence := n } else a)).find?
          (fun a => decide (a.accountId = src)) = some b ∧ b.sequence = n := by
  induction accounts with
  | nil => simp at h
  | cons a rest ih =>
    by_cases ha : a.accountId = src
    · exact ⟨{ a with sequence := n }, by simp [ha], rfl⟩
    · have hrest : rest.any (fun a => decide (a.accountId = src)) = true := by
        simpa [ha] using h
      obtain ⟨b, hb, hn⟩ := ih hrest
      exact ⟨b, by simpa [ha] using hb, hn⟩

/-- On the ledger server an accepted submission advances the sequence number of the
source account. -/
theorem ledgerServer_submit_advances (l : Ledger) (tx : Transaction) (r : SubmitResult)
    (h : (ledgerServer.submitTransaction l tx).1 = Reply.fulfilled r) :
    l.sequenceOf tx.source < (ledgerServer.submitTransaction l tx).2.sequenceOf tx.source := by
  simp only [ledgerServer] at h ⊢
  split_ifs at h ⊢ with hc
  · obtain ⟨hany, hseq, -⟩ := hc
    obtain ⟨b, hb, hn⟩ := find_after_update l.accounts tx.source tx.sequence hany
    have : Ledger.sequenceOf
        { accounts := l.accounts.map (fun a =>
            if a.accountId = tx.source then { a with sequence := tx.sequence } else a)
          applied := l.applied + 1 } tx.source = tx.sequence := by
      simp only [Ledger.sequenceOf, hb, hn]
    rw [this, hseq]
    exact Nat.lt_succ_self _

/-- C1 (destination gate).  When the destination load is rejected with a
`NotFoundError`, the promise is rejected with the Error whose message is exactly
'The destination account does not exist!' (a plain Error, different from the raw
rejection); the only collaborator call of the whole call is the one load of the
destination, so there is no load for the sender, no build, no signing and no submission;
the server is left in the state that this one load produced, and the module-level
transaction is untouched. -/
theorem destination_gate {σ : Type} (sdk : Sdk) (server : Server σ)
    (destinationId : String) (sourceKeys : Keypair) (amount offerId : String)
    (w : World σ) (e : JsError)
    (hload : (server.loadAccount w.net destinationId).1 = Reply.rejected e)
    (hnf : e.isNotFoundError = true) :
    (makePayment sdk server destinationId sourceKeys amount offerId w).2
        = Outcome.rejected
            { cls := ErrorClass.error, message := "The destination account does not exist!" } ∧
    ({ cls := ErrorClass.error, message := "The destination account does not exist!" } : JsError)
        ≠ e ∧
    (∃ new : List Call,
      (makePayment sdk server destinationId sourceKeys amount offerId w).1.calls
          = w.calls ++ new ∧
      new = [Call.loadAccount destinationId] ∧
      new.countP Call.isLoad = 1 ∧
      new.countP Call.isSubmit = 0 ∧
      (∀ b, Call.build b ∉ new) ∧
      (∀ t k, Call.sign t k ∉ new)) ∧
    (makePayment sdk server destinationId sourceKeys amount offerId w).1.net
        = (server.loadAccount w.net destinationId).2 ∧
    (makePayment sdk server destinationId sourceKeys amount offerId w).1.module.transaction
        = w.module.transaction := by
  have hne : ({ cls := ErrorClass.error,
                message := "The destination account does not exist!" } : JsError) ≠ e := by
    intro h
    subst h
    simp [JsError.isNotFoundError] at hnf
  refine ⟨?_, hne, ⟨[Call.loadAccount destinationId], ?_, rfl, ?_, ?_, ?_, ?_⟩, ?_, ?_⟩ <;>
    simp [makePayment, start, destinationLoaded, hload, hnf, catchAll, Phase.outcome,
      destinationMissing, Call.isLoad, Call.isSubmit]

/-- C1 instantiated: the destination "GHOST" is not on the sample ledger. -/
theorem destination_gate_witness :
    (ledgerServer.loadAccount (freshWorld sampleLedger).net "GHOST").1 = Reply.rejected notFound ∧
    notFound.isNotFoundError = true ∧
    (makePayment permissiveSdk ledgerServer "GHOST" sampleKeys "100" "offer-42"
        (freshWorld sampleLedger)).2
      = Outcome.rejected
          { cls := ErrorClass.error, message := "The destination account does not exist!" } ∧
    (makePayment permissiveSdk ledgerServer "GHOST" sampleKeys "100" "offer-42"
        (freshWorld sampleLedger)).1.net
      = (ledgerServer.loadAccount (freshWorld sampleLedger).net "GHOST").2 :=
  have h := destination_gate permissiveSdk ledgerServer "GHOST" sampleKeys "100" "offer-42"
    (freshWorld sampleLedger) notFound (by decide) (by decide)
  ⟨by decide, by decide, h.1, h.2.2.2.1⟩

/-- C2 (happy path).  When both loads are fulfilled, the SDK throws nowhere and the
network accepts the submission, the calls made are, in this order, the two loads, the
build on the sender account loaded in this call, the signing with `sourceKeys`, and one
submission; the submitted transaction has exactly one operation, a native-asset payment
of `amount` to `destinationId`, the text memo `offerId`, the sequence number following
the loaded one, and exactly the signature of `sourceKeys`; the promise resolves. -/
theorem happy_path {σ : Type} (sdk : Sdk) (server : Server σ)
    (destinationId : String) (sourceKeys : Keypair) (amount offerId : String)
    (w : World σ) (destAccount sourceAccount : Account) (result : SubmitResult)
    (hdest : (server.loadAccount w.net destinationId).1 = Reply.fulfilled destAccount)
    (hsrc : (server.loadAccount (server.loadAccount w.net destinationId).2
              sourceKeys.publicKey).1 = Reply.fulfilled sourceAccount)
    (hsdk : SdkAccepts sdk
              { destinationId := destinationId, sourceKeys := sourceKeys
                amount := amount, offerId := offerId } sourceAccount)
    (hsub : (server.submitTransaction
              (server.loadAccount (server.loadAccount w.net destinationId).2
                sourceKeys.publicKey).2
              (signedPayment sdk
                { destinationId := destinationId, sourceKeys := sourceKeys
                  amount := amount, offerId := offerId } sourceAccount)).1
            = Reply.fulfilled result) :
    ∃ (builder : TransactionBuilder) (tx : Transaction),
      (makePayment sdk server destinationId sourceKeys amount offerId w).1.calls
        = w.calls ++ [Call.loadAccount destinationId, Call.loadAccount sourceKeys.publicKey,
                      Call.build builder, Call.sign builder.build sourceKeys,
                      Call.submitTransaction tx] ∧
      builder.source = sourceAccount ∧
      tx.source = sourceAccount.accountId ∧
      tx.sequence = sourceAccount.sequence + 1 ∧
      tx.operations
        = [Operation.payment
            { destination := destinationId, asset := Asset.native, amount := amount }] ∧
      tx.memo = Memo.text offerId ∧
      tx.signatures
        = [{ hint := sourceKeys.publicKey
             signature := sdk.signature builder.build sourceKeys }] ∧
      builder.build = { tx with signatures := [] } ∧
      (makePayment sdk server destinationId sourceKeys amount offerId w).2
        = Outcome.resolved (JsValue.string "success") := by
  refine ⟨paymentBuilder ⟨destinationId, sourceKeys, amount, offerId⟩ sourceAccount,
    signedPayment sdk ⟨destinationId, sourceKeys, amount, offerId⟩ sourceAccount, ?_⟩
  rw [makePayment_of_accepts sdk server destinationId sourceKeys amount offerId w
    destAccount sourceAccount hdest hsrc hsdk, hsub]
  simp [submitSettled, Phase.outcome, paymentBuilder, signedPayment,
    TransactionBuilder.build, Transaction.sign]

/-- C2 instantiated at destination "DEST1", amount "100", offer id "offer-42" on the
sample ledger. -/
theorem happy_path_witness :
    (makePayment permissiveSdk ledgerServer "DEST1" sampleKeys "100" "offer-42"
        (freshWorld sampleLedger)).2 = Outcome.resolved (JsValue.string "success") ∧
    ∃ tx, Call.submitTransaction tx ∈
        (makePayment permissiveSdk ledgerServer "DEST1" sampleKeys "100" "offer-42"
          (freshWorld sampleLedger)).1.calls ∧
      tx.operations
        = [Operation.payment { destination := "DEST1", asset := Asset.native, amount := "100" }] ∧
      tx.memo = Memo.text "offer-42" ∧ tx.sequence = 42 :=
  have h := happy_path permissiveSdk ledgerServer "DEST1" sampleKeys "100" "offer-42"
    (freshWorld sampleLedger) { accountId := "DEST1", sequence := 7 }
    { accountId := "SENDER", sequence := 41 } { hash := "tx", ledger := 1 }
    (by decide) (by decide) (by simp [SdkAccepts, permissiveSdk]) (by decide)
  match h with
  | ⟨_, tx, hcalls, _, _, hseq, hops, hmemo, _, _, hout⟩ =>
    ⟨hout, tx, by rw [hcalls]; simp, hops, hmemo, hseq⟩

/-- C3 (submission failure propagation).  When the call reaches the submission and
`server.submitTransaction` is rejected with `e`, whatever `e` is, the promise of
`makePayment` is rejected with that same `e`; it is not resolved and not left pending. -/
theorem submission_failure_propagates {σ : Type} (sdk : Sdk) (server : Server σ)
    (destinationId : String) (sourceKeys : Keypair) (amount offerId : String)
    (w : World σ) (destAccount sourceAccount : Account) (e : JsError)
    (hdest : (server.loadAccount w.net destinationId).1 = Reply.fulfilled destAccount)
    (hsrc : (server.loadAccount (server.loadAccount w.net destinationId).2
              sourceKeys.publicKey).1 = Reply.fulfilled sourceAccount)
    (hsdk : SdkAccepts sdk
              { destinationId := destinationId, sourceKeys := sourceKeys
                amount := amount, offerId := offerId } sourceAccount)
    (hsub : (server.submitTransaction
              (server.loadAccount (server.loadAccount w.net destinationId).2
                sourceKeys.publicKey).2
              (signedPayment sdk
                { destinationId := destinationId, sourceKeys := sourceKeys
                  amount := amount, offerId := offerId } sourceAccount)).1
            = Reply.rejected e) :
    (makePayment sdk server destinationId sourceKeys amount offerId w).2 = Outcome.rejected e ∧
    (∀ v, (makePayment sdk server destinationId sourceKeys amount offerId w).2
            ≠ Outcome.resolved v) ∧
    (makePayment sdk server destinationId sourceKeys amount offerId w).2 ≠ Outcome.pending ∧
    Call.submitTransaction
        (signedPayment sdk
          { destinationId := destinationId, sourceKeys := sourceKeys
            amount := amount, offerId := offerId } sourceAccount)
      ∈ (makePayment sdk server destinationId sourceKeys amount offerId w).1.calls := by
  rw [makePayment_of_accepts sdk server destinationId sourceKeys amount offerId w
    destAccount sourceAccount hdest hsrc hsdk, hsub]
  simp [submitSettled, Phase.outcome, catchAll]

/-- C3 instantiated: the network rejects the submission with a `NotFoundError`, which
is passed on as it is (the filtered catch sits before the submission in the chain). -/
theorem submission_failure_propagates_witness :
    (makePayment permissiveSdk
        (scriptedServer (Reply.fulfilled { accountId := "DEST1", sequence := 7 })
          (Reply.fulfilled { accountId := "SENDER", sequence := 41 }) (Reply.rejected notFound))
        "DEST1" sampleKeys "100" "offer-42" (freshWorld 0)).2 = Outcome.rejected notFound :=
  (submission_failure_propagates permissiveSdk
    (scriptedServer (Reply.fulfilled { accountId := "DEST1", sequence := 7 })
      (Reply.fulfilled { accountId := "SENDER", sequence := 41 }) (Reply.rejected notFound))
    "DEST1" sampleKeys "100" "offer-42" (freshWorld 0)
    { accountId := "DEST1", sequence := 7 } { accountId := "SENDER", sequence := 41 } notFound
    (by decide) (by decide) (by simp [SdkAccepts, permissiveSdk]) (by decide)).1

/-- C4 (other resolution failures propagate verbatim).  (a) A destination load
rejected with an error that is not a `NotFoundError` rejects the promise with that very
error, after the destination load alone; (b) a sender load rejected with any error, a
`NotFoundError` included, rejects the promise with that very error, after the two loads
alone.  In both cases the server is left in the state of its last load: nothing is
submitted. -/
theorem resolution_failures_propagate {σ : Type} (sdk : Sdk) (server : Server σ)
    (destinationId : String) (sourceKeys : Keypair) (amount offerId : String) (w : World σ) :
    (∀ e, (server.loadAccount w.net destinationId).1 = Reply.rejected e →
        e.isNotFoundError = false →
        (makePayment sdk server destinationId sourceKeys amount offerId w).2
            = Outcome.rejected e ∧
        (makePayment sdk server destinationId sourceKeys amount offerId w).1.calls
            = w.calls ++ [Call.loadAccount destinationId] ∧
        (makePayment sdk server destinationId sourceKeys amount offerId w).1.net
            = (server.loadAccount w.net destinationId).2) ∧
    (∀ destAccount e, (server.loadAccount w.net destinationId).1 = Reply.fulfilled destAccount →
        (server.loadAccount (server.loadAccount w.net destinationId).2
            sourceKeys.publicKey).1 = Reply.rejected e →
        (makePayment sdk server destinationId sourceKeys amount offerId w).2
            = Outcome.rejected e ∧
        (makePayment sdk server destinationId sourceKeys amount offerId w).1.calls
            = w.calls ++ [Call.loadAccount destinationId, Call.loadAccount sourceKeys.publicKey] ∧
        (makePayment sdk server destinationId sourceKeys amount offerId w).1.net
            = (server.loadAccount (server.loadAccount w.net destinationId).2
                sourceKeys.publicKey).2) := by
  constructor
  · intro e h1 hnf
    simp [makePayment, start, destinationLoaded, h1, hnf, catchAll, Phase.outcome]
  · intro destAccount e h1 h2
    simp [makePayment, start, destinationLoaded, senderLoaded, h1, h2, catchAll, Phase.outcome]

/-- C4 instantiated: (a) the destination load times out; (b) the sender account is
missing, and its `NotFoundError` is passed on as it is. -/
theorem resolution_failures_propagate_witness :
    (makePayment permissiveSdk
        (scriptedServer (Reply.rejected timedOut) Reply.never Reply.never)
        "DEST1" sampleKeys "100" "offer-42" (freshWorld 0)).2 = Outcome.rejected timedOut ∧
    (makePayment permissiveSdk
        (scriptedServer (Reply.fulfilled { accountId := "DEST1", sequence := 7 })
          (Reply.rejected notFound) Reply.never)
        "DEST1" sampleKeys "100" "offer-42" (freshWorld 0)).2 = Outcome.rejected notFound ∧
    (makePayment permissiveSdk
        (scriptedServer (Reply.fulfilled { accountId := "DEST1", sequence := 7 })
          (Reply.rejected notFound) Reply.never)
        "DEST1" sampleKeys "100" "offer-42" (freshWorld 0)).1.calls
      = [] ++ [Call.loadAccount "DEST1", Call.loadAccount sampleKeys.publicKey] :=
  ⟨((resolution_failures_propagate permissiveSdk
        (scriptedServer (Reply.rejected timedOut) Reply.never Reply.never)
        "DEST1" sampleKeys "100" "offer-42" (freshWorld 0)).1 timedOut
        (by decide) (by decide)).1,
   ((resolution_failures_propagate permissiveSdk
        (scriptedServer (Reply.fulfilled { accountId := "DEST1", sequence := 7 })
          (Reply.rejected notFound) Reply.never)
        "DEST1" sampleKeys "100" "offer-42" (freshWorld 0)).2
        { accountId := "DEST1", sequence := 7 } notFound (by decide) (by decide)).1,
   ((resolution_failures_propagate permissiveSdk
        (scriptedServer (Reply.fulfilled { accountId := "DEST1", sequence := 7 })
          (Reply.rejected notFound) Reply.never)
        "DEST1" sampleKeys "100" "offer-42" (freshWorld 0)).2
        { accountId := "DEST1", sequence := 7 } notFound (by decide) (by decide)).2.1⟩

/-- The shape of the trace of one call: a non-empty initial segment of the five
collaborator calls, each step reached only through the success of the earlier ones. -/
theorem order_of_operations_shape {σ : Type} (sdk : Sdk) (server : Server σ)
    (destinationId : String) (sourceKeys : Keypair) (amount offerId : String) (w : World σ) :
    ∃ (n : Nat) (builder : TransactionBuilder) (tx : Transaction),
      1 ≤ n ∧
      (makePayment sdk server destinationId sourceKeys amount offerId w).1.calls
        = w.calls ++ List.take n
            [Call.loadAccount destinationId, Call.loadAccount sourceKeys.publicKey,
             Call.build builder, Call.sign builder.build sourceKeys,
             Call.submitTransaction tx] ∧
      (2 ≤ n → ∃ destAccount,
          (server.loadAccount w.net destinationId).1 = Reply.fulfilled destAccount) ∧
      (3 ≤ n → ∃ sourceAccount,
          (server.loadAccount (server.loadAccount w.net destinationId).2
              sourceKeys.publicKey).1 = Reply.fulfilled sourceAccount ∧
          builder.source = sourceAccount ∧
          sdk.paymentError
            { destination := destinationId, asset := Asset.native, amount := amount } = none ∧
          sdk.memoTextError offerId = none) ∧
      (4 ≤ n → sdk.buildError builder = none) ∧
      (5 ≤ n → sdk.signError builder.build sourceKeys = none ∧
          tx = builder.build.sign sdk sourceKeys ∧
          { hint := sourceKeys.publicKey
            signature := sdk.signature builder.build sourceKeys } ∈ tx.signatures) := by
  rcases h1 : (server.loadAccount w.net destinationId).1 with a1 | e1 | x1 | _
  · rcases h2 : (server.loadAccount (server.loadAccount w.net destinationId).2
        sourceKeys.publicKey).1 with a2 | e2 | x2 | _
    · rcases hp : sdk.paymentError
          { destination := destinationId, asset := Asset.native, amount := amount } with _ | e
      · rcases hm : sdk.memoTextError offerId with _ | e
        · rcases hb : sdk.buildError
              (paymentBuilder ⟨destinationId, sourceKeys, amount, offerId⟩ a2) with _ | e
          · rcases hs : sdk.signError
                (paymentBuilder ⟨destinationId, sourceKeys, amount, offerId⟩ a2).build
                sourceKeys with _ | e
            · refine ⟨5, paymentBuilder ⟨destinationId, sourceKeys, amount, offerId⟩ a2,
                signedPayment sdk ⟨destinationId, sourceKeys, amount, offerId⟩ a2, ?_⟩
              rw [makePayment_of_accepts sdk server destinationId sourceKeys amount offerId w
                a1 a2 h1 h2 ⟨hp, hm, hb, hs⟩]
              simp only [paymentBuilder] at hb hs
              simp [hp, hm, hb, hs, signedPayment, Transaction.sign, paymentBuilder]
            · refine ⟨4, paymentBuilder ⟨destinationId, sourceKeys, amount, offerId⟩ a2,
                signedPayment sdk ⟨destinationId, sourceKeys, amount, offerId⟩ a2, ?_⟩
              simp [makePayment, start, destinationLoaded, senderLoaded, h1, h2, hp, hm, hb,
                hs, catchAll, Phase.outcome]
              simp [paymentBuilder]
          · refine ⟨3, paymentBuilder ⟨destinationId, sourceKeys, amount, offerId⟩ a2,
              signedPayment sdk ⟨destinationId, sourceKeys, amount, offerId⟩ a2, ?_⟩
            simp [makePayment, start, destinationLoaded, senderLoaded, h1, h2, hp, hm, hb,
              catchAll, Phase.outcome]
            simp [paymentBuilder]
        · refine ⟨2, paymentBuilder ⟨destinationId, sourceKeys, amount, offerId⟩ a2,
            signedPayment sdk ⟨destinationId, sourceKeys, amount, offerId⟩ a2, ?_⟩
          simp [makePayment, start, destinationLoaded, senderLoaded, h1, h2, hp, hm,
            catchAll, Phase.outcome]
      · refine ⟨2, paymentBuilder ⟨destinationId, sourceKeys, amount, offerId⟩ a2,
          signedPayment sdk ⟨destinationId, sourceKeys, amount, offerId⟩ a2, ?_⟩
        simp [makePayment, start, destinationLoaded, senderLoaded, h1, h2, hp,
          catchAll, Phase.outcome]
    · refine ⟨2, paymentBuilder ⟨destinationId, sourceKeys, amount, offerId⟩ ⟨"", 0⟩,
        signedPayment sdk ⟨destinationId, sourceKeys, amount, offerId⟩ ⟨"", 0⟩, ?_⟩
      simp [makePayment, start, destinationLoaded, senderLoaded, h1, h2,
        catchAll, Phase.outcome]
    · refine ⟨2, paymentBuilder ⟨destinationId, sourceKeys, amount, offerId⟩ ⟨"", 0⟩,
        signedPayment sdk ⟨destinationId, sourceKeys, amount, offerId⟩ ⟨"", 0⟩, ?_⟩
      simp [makePayment, start, destinationLoaded, senderLoaded, h1, h2,
        catchAll, Phase.outcome]
    · refine ⟨2, paymentBuilder ⟨destinationId, sourceKeys, amount, offerId⟩ ⟨"", 0⟩,
        signedPayment sdk ⟨destinationId, sourceKeys, amount, offerId⟩ ⟨"", 0⟩, ?_⟩
      simp [makePayment, start, destinationLoaded, senderLoaded, h1, h2,
        catchAll, Phase.outcome]
  · refine ⟨1, paymentBuilder ⟨destinationId, sourceKeys, amount, offerId⟩ ⟨"", 0⟩,
      signedPayment sdk ⟨destinationId, sourceKeys, amount, offerId⟩ ⟨"", 0⟩, ?_⟩
    by_cases hnf : e1.isNotFoundError = true <;>
      simp [makePayment, start, destinationLoaded, h1, hnf, catchAll, Phase.outcome]
  · refine ⟨1, paymentBuilder ⟨destinationId, sourceKeys, amount, offerId⟩ ⟨"", 0⟩,
      signedPayment sdk ⟨destinationId, sourceKeys, amount, offerId⟩ ⟨"", 0⟩, ?_⟩
    simp [makePayment, start, destinationLoaded, h1, catchAll, Phase.outcome]
  · refine ⟨1, paymentBuilder ⟨destinationId, sourceKeys, amount, offerId⟩ ⟨"", 0⟩,
      signedPayment sdk ⟨destinationId, sourceKeys, amount, offerId⟩ ⟨"", 0⟩, ?_⟩
    simp [makePayment, start, destinationLoaded, h1, catchAll, Phase.outcome]

/-- C5 (order of operations).  Whatever the server and the SDK do, the calls of one
`makePayment` call are a non-empty initial segment of: destination load, sender load,
build, sign with `sourceKeys`, submit.  A step is reached only if every earlier step
was made and succeeded: the sender load only after a fulfilled destination load, the
build only after a fulfilled sender load (and a payment operation and memo that did not
throw), the signing only after a build that did not throw, and the submission only
after a signing that did not throw, so the submitted transaction is the built one with
the signature of `sourceKeys` on it. -/
theorem order_of_operations {σ : Type} (sdk : Sdk) (server : Server σ)
    (destinationId : String) (sourceKeys : Keypair) (amount offerId : String) (w : World σ) :
    ∃ (n : Nat) (builder : TransactionBuilder) (tx : Transaction),
      1 ≤ n ∧
      (makePayment sdk server destinationId sourceKeys amount offerId w).1.calls
        = w.calls ++ List.take n
            [Call.loadAccount destinationId, Call.loadAccount sourceKeys.publicKey,
             Call.build builder, Call.sign builder.build sourceKeys,
             Call.submitTransaction tx] ∧
      (2 ≤ n → ∃ destAccount,
          (server.loadAccount w.net destinationId).1 = Reply.fulfilled destAccount) ∧
      (3 ≤ n → ∃ sourceAccount,
          (server.loadAccount (server.loadAccount w.net destinationId).2
              sourceKeys.publicKey).1 = Reply.fulfilled sourceAccount ∧
          builder.source = sourceAccount ∧
          sdk.paymentError
            { destination := destinationId, asset := Asset.native, amount := amount } = none ∧
          sdk.memoTextError offerId = none) ∧
      (4 ≤ n → sdk.buildError builder = none) ∧
      (5 ≤ n → sdk.signError builder.build sourceKeys = none ∧
          tx = builder.build.sign sdk sourceKeys ∧
          { hint := sourceKeys.publicKey
            signature := sdk.signature builder.build sourceKeys } ∈ tx.signatures) :=
  order_of_operations_shape sdk server destinationId sourceKeys amount offerId w

/-- C6 (no automatic resubmission).  Whatever the server and the SDK do, one
`makePayment` call makes at most one submission; it makes exactly one when both loads are
fulfilled and the SDK throws nowhere; and when that submission is rejected (a timeout
without response body included) the promise is rejected with the error, the console
gains exactly one error line, and the submission is the last collaborator call: the
built transaction is not submitted a second time. -/
theorem no_automatic_resubmission {σ : Type} (sdk : Sdk) (server : Server σ)
    (destinationId : String) (sourceKeys : Keypair) (amount offerId : String) (w : World σ) :
    ∃ new : List Call,
      (makePayment sdk server destinationId sourceKeys amount offerId w).1.calls
        = w.calls ++ new ∧
      new.countP Call.isSubmit ≤ 1 ∧
      (∀ destAccount sourceAccount,
        (server.loadAccount w.net destinationId).1 = Reply.fulfilled destAccount →
        (server.loadAccount (server.loadAccount w.net destinationId).2
            sourceKeys.publicKey).1 = Reply.fulfilled sourceAccount →
        SdkAccepts sdk
          { destinationId := destinationId, sourceKeys := sourceKeys
            amount := amount, offerId := offerId } sourceAccount →
        new.countP Call.isSubmit = 1 ∧
        new.getLast? = some (Call.submitTransaction (signedPayment sdk
          { destinationId := destinationId, sourceKeys := sourceKeys
            amount := amount, offerId := offerId } sourceAccount)) ∧
        ∀ e,
          (server.submitTransaction
              (server.loadAccount (server.loadAccount w.net destinationId).2
                sourceKeys.publicKey).2
              (signedPayment sdk
                { destinationId := destinationId, sourceKeys := sourceKeys
                  amount := amount, offerId := offerId } sourceAccount)).1
            = Reply.rejected e →
          (makePayment sdk server destinationId sourceKeys amount offerId w).2
            = Outcome.rejected e ∧
          (makePayment sdk server destinationId sourceKeys amount offerId w).1.module.console
            = w.module.console ++ [ConsoleLine.error "Something went wrong!" e] ∧
          (makePayment sdk server destinationId sourceKeys amount offerId w).1.net
            = (server.submitTransaction
                (server.loadAccount (server.loadAccount w.net destinationId).2
                  sourceKeys.publicKey).2
                (signedPayment sdk
                  { destinationId := destinationId, sourceKeys := sourceKeys
                    amount := amount, offerId := offerId } sourceAccount)).2) := by
  obtain ⟨n, builder, tx, hn, hcalls, -, -, -, -⟩ :=
    order_of_operations_shape sdk server destinationId sourceKeys amount offerId w
  refine ⟨List.take n
      [Call.loadAccount destinationId, Call.loadAccount sourceKeys.publicKey,
       Call.build builder, Call.sign builder.build sourceKeys,
       Call.submitTransaction tx], hcalls, ?_, ?_⟩
  · have hsub : List.Sublist (List.take n
        [Call.loadAccount destinationId, Call.loadAccount sourceKeys.publicKey,
         Call.build builder, Call.sign builder.build sourceKeys,
         Call.submitTransaction tx])
        [Call.loadAccount destinationId, Call.loadAccount sourceKeys.publicKey,
         Call.build builder, Call.sign builder.build sourceKeys,
         Call.submitTransaction tx] := List.take_sublist _ _
    have := hsub.countP_le Call.isSubmit
    simpa [Call.isSubmit, List.countP_cons] using this
  · intro destAccount sourceAccount hdest hsrc hsdk
    have hmk := makePayment_of_accepts sdk server destinationId sourceKeys amount offerId w
      destAccount sourceAccount hdest hsrc hsdk
    have hc := hcalls
    rw [hmk] at hc
    have hnew := List.append_cancel_left hc
    rw [← hnew]
    refine ⟨by simp [Call.isSubmit, List.countP_cons], by simp, ?_⟩
    intro e he
    rw [hmk, he]
    simp [submitSettled, catchAll, Phase.outcome]

/-- C6 instantiated: the submission times out without a response body. -/
theorem no_automatic_resubmission_witness :
    ∃ new : List Call,
      (makePayment permissiveSdk
          (scriptedServer (Reply.fulfilled { accountId := "DEST1", sequence := 7 })
            (Reply.fulfilled { accountId := "SENDER", sequence := 41 })
            (Reply.rejected timedOut))
          "DEST1" sampleKeys "100" "offer-42" (freshWorld 0)).1.calls = [] ++ new ∧
      new.countP Call.isSubmit = 1 ∧
      (makePayment permissiveSdk
          (scriptedServer (Reply.fulfilled { accountId := "DEST1", sequence := 7 })
            (Reply.fulfilled { accountId := "SENDER", sequence := 41 })
            (Reply.rejected timedOut))
          "DEST1" sampleKeys "100" "offer-42" (freshWorld 0)).2 = Outcome.rejected timedOut ∧
      (makePayment permissiveSdk
          (scriptedServer (Reply.fulfilled { accountId := "DEST1", sequence := 7 })
            (Reply.fulfilled { accountId := "SENDER", sequence := 41 })
            (Reply.rejected timedOut))
          "DEST1" sampleKeys "100" "offer-42" (freshWorld 0)).1.module.console
        = [] ++ [ConsoleLine.error "Something went wrong!" timedOut] :=
  match no_automatic_resubmission permissiveSdk
      (scriptedServer (Reply.fulfilled { accountId := "DEST1", sequence := 7 })
        (Reply.fulfilled { accountId := "SENDER", sequence := 41 })
        (Reply.rejected timedOut))
      "DEST1" sampleKeys "100" "offer-42" (freshWorld 0) with
  | ⟨new, hcalls, _, h⟩ =>
    have h2 := h { accountId := "DEST1", sequence := 7 } { accountId := "SENDER", sequence := 41 }
      (by decide) (by decide) (by simp [SdkAccepts, permissiveSdk])
    have h3 := h2.2.2 timedOut (by decide)
    ⟨new, hcalls, h2.1, h3.1, h3.2.1⟩

/-- C8, the claim as stated, fails: on the sample ledger the submission is accepted
with a network result, and the promise is resolved with the string "success", not with
that result. -/
theorem outcome_carries_result_counterexample :
    (ledgerServer.submitTransaction
        (ledgerServer.loadAccount (ledgerServer.loadAccount sampleLedger "DEST1").2 "SENDER").2
        (signedPayment permissiveSdk
          { destinationId := "DEST1", sourceKeys := sampleKeys
            amount := "100", offerId := "offer-42" }
          { accountId := "SENDER", sequence := 41 })).1
      = Reply.fulfilled { hash := "tx", ledger := 1 } ∧
    (makePayment permissiveSdk ledgerServer "DEST1" sampleKeys "100" "offer-42"
        (freshWorld sampleLedger)).2 = Outcome.resolved (JsValue.string "success") ∧
    (makePayment permissiveSdk ledgerServer "DEST1" sampleKeys "100" "offer-42"
        (freshWorld sampleLedger)).2
      ≠ Outcome.resolved (JsValue.response { hash := "tx", ledger := 1 }) := by
  decide

/-- C8 as amended.  A rejected promise carries the triggering error: the error of the
first step that failed, as it is (a load that is rejected or throws, a payment
operation, memo, build or signing that throws, a submission that is rejected or throws),
and for a destination load rejected with a `NotFoundError` the Error
'The destination account does not exist!' thrown in its place.  A resolved promise
comes from an accepted submission and carries the string "success", not the result
that `server.submitTransaction` returned. -/
theorem terminal_outcomes {σ : Type} (sdk : Sdk) (server : Server σ)
    (destinationId : String) (sourceKeys : Keypair) (amount offerId : String) (w : World σ) :
    (∀ e, (makePayment sdk server destinationId sourceKeys amount offerId w).2
          = Outcome.rejected e →
      (∃ raw, (server.loadAccount w.net destinationId).1 = Reply.rejected raw ∧
          raw.isNotFoundError = true ∧
          e = { cls := ErrorClass.error
                message := "The destination account does not exist!" }) ∨
      ((server.loadAccount w.net destinationId).1 = Reply.rejected e ∧
          e.isNotFoundError = false) ∨
      (server.loadAccount w.net destinationId).1 = Reply.thrown e ∨
      (∃ destAccount,
        (server.loadAccount w.net destinationId).1 = Reply.fulfilled destAccount ∧
        ((server.loadAccount (server.loadAccount w.net destinationId).2
            sourceKeys.publicKey).1 = Reply.rejected e ∨
         (server.loadAccount (server.loadAccount w.net destinationId).2
            sourceKeys.publicKey).1 = Reply.thrown e ∨
         (∃ sourceAccount,
          (server.loadAccount (server.loadAccount w.net destinationId).2
            sourceKeys.publicKey).1 = Reply.fulfilled sourceAccount ∧
          (sdk.paymentError
              { destination := destinationId, asset := Asset.native, amount := amount }
              = some e ∨
           (sdk.paymentError
              { destination := destinationId, asset := Asset.native, amount := amount }
              = none ∧
            (sdk.memoTextError offerId = some e ∨
             (sdk.memoTextError offerId = none ∧
              (sdk.buildError (paymentBuilder
                  { destinationId := destinationId, sourceKeys := sourceKeys
                    amount := amount, offerId := offerId } sourceAccount) = some e ∨
               (sdk.buildError (paymentBuilder
                  { destinationId := destinationId, sourceKeys := sourceKeys
                    amount := amount, offerId := offerId } sourceAccount) = none ∧
                (sdk.signError (paymentBuilder
                    { destinationId := destinationId, sourceKeys := sourceKeys
                      amount := amount, offerId := offerId } sourceAccount).build sourceKeys
                    = some e ∨
                 (sdk.signError (paymentBuilder
                    { destinationId := destinationId, sourceKeys := sourceKeys
                      amount := amount, offerId := offerId } sourceAccount).build sourceKeys
                    = none ∧
                  ((server.submitTransaction
                      (server.loadAccount (server.loadAccount w.net destinationId).2
                        sourceKeys.publicKey).2
                      (signedPayment sdk
                        { destinationId := destinationId, sourceKeys := sourceKeys
                          amount := amount, offerId := offerId } sourceAccount)).1
                      = Reply.rejected e ∨
                   (server.submitTransaction
                      (server.loadAccount (server.loadAccount w.net destinationId).2
                        sourceKeys.publicKey).2
                      (signedPayment sdk
                        { destinationId := destinationId, sourceKeys := sourceKeys
                          amount := amount, offerId := offerId } sourceAccount)).1
                      = Reply.thrown e))))))))))))) ∧
    (∀ v, (makePayment sdk server destinationId sourceKeys amount offerId w).2
          = Outcome.resolved v →
      v = JsValue.string "success" ∧
      ∃ sourceAccount result,
        (server.loadAccount (server.loadAccount w.net destinationId).2
            sourceKeys.publicKey).1 = Reply.fulfilled sourceAccount ∧
        (server.submitTransaction
            (server.loadAccount (server.loadAccount w.net destinationId).2
              sourceKeys.publicKey).2
            (signedPayment sdk
              { destinationId := destinationId, sourceKeys := sourceKeys
                amount := amount, offerId := offerId } sourceAccount)).1
          = Reply.fulfilled result ∧
        v ≠ JsValue.response result) := by
  rcases h1 : (server.loadAccount w.net destinationId).1 with a1 | e1 | x1 | _
  · rcases h2 : (server.loadAccount (server.loadAccount w.net destinationId).2
        sourceKeys.publicKey).1 with a2 | e2 | x2 | _
    · rcases hp : sdk.paymentError
          { destination := destinationId, asset := Asset.native, amount := amount } with _ | e
      · rcases hm : sdk.memoTextError offerId with _ | e
        · rcases hb : sdk.buildError
              (paymentBuilder ⟨destinationId, sourceKeys, amount, offerId⟩ a2) with _ | e
          · rcases hs : sdk.signError
                (paymentBuilder ⟨destinationId, sourceKeys, amount, offerId⟩ a2).build
                sourceKeys with _ | e
            · rw [makePayment_of_accepts sdk server destinationId sourceKeys amount offerId w
                a1 a2 h1 h2 ⟨hp, hm, hb, hs⟩]
              rcases h3 : (server.submitTransaction
                  (server.loadAccount (server.loadAccount w.net destinationId).2
                    sourceKeys.publicKey).2
                  (signedPayment sdk ⟨destinationId, sourceKeys, amount, offerId⟩ a2)).1
                with r | e3 | x3 | _
              · refine ⟨?_, ?_⟩
                · intro e he
                  simp [submitSettled, Phase.outcome] at he
                · intro v hv
                  simp [submitSettled, Phase.outcome] at hv
                  subst hv
                  exact ⟨rfl, a2, r, rfl, h3, by simp⟩
              · refine ⟨?_, ?_⟩
                · intro e he
                  simp [submitSettled, catchAll, Phase.outcome] at he
                  subst he
                  simp [h3]
                  exact Or.inr ⟨hb, Or.inr hs⟩
                · intro v hv
                  simp [submitSettled, catchAll, Phase.outcome] at hv
              · refine ⟨?_, ?_⟩
                · intro e he
                  simp [submitSettled, catchAll, Phase.outcome] at he
                  subst he
                  simp [h3]
                  exact Or.inr ⟨hb, Or.inr hs⟩
                · intro v hv
                  simp [submitSettled, catchAll, Phase.outcome] at hv
              · simp [submitSettled, Phase.outcome]
            · simp [makePayment, start, destinationLoaded, senderLoaded, h1, h2, hp, hm, hb,
                hs, catchAll, Phase.outcome]
          · simp [makePayment, start, destinationLoaded, senderLoaded, h1, h2, hp, hm, hb,
              catchAll, Phase.outcome]
        · simp [makePayment, start, destinationLoaded, senderLoaded, h1, h2, hp, hm,
            catchAll, Phase.outcome]
      · simp [makePayment, start, destinationLoaded, senderLoaded, h1, h2, hp,
          catchAll, Phase.outcome]
    · simp [makePayment, start, destinationLoaded, senderLoaded, h1, h2,
        catchAll, Phase.outcome]
    · simp [makePayment, start, destinationLoaded, senderLoaded, h1, h2,
        catchAll, Phase.outcome]
    · simp [makePayment, start, destinationLoaded, senderLoaded, h1, h2,
        catchAll, Phase.outcome]
  · by_cases hnf : e1.isNotFoundError = true
    · simp [makePayment, start, destinationLoaded, h1, hnf, catchAll, Phase.outcome,
        destinationMissing]
    · simp [makePayment, start, destinationLoaded, h1, hnf, catchAll, Phase.outcome]
  · simp [makePayment, start, destinationLoaded, h1, Phase.outcome]
  · simp [makePayment, start, destinationLoaded, h1, Phase.outcome]

/-- C8 as amended, instantiated on the sample ledger: the accepted submission resolves
the promise with "success", which is not the network result. -/
theorem terminal_outcomes_witness :
    (makePayment permissiveSdk ledgerServer "DEST1" sampleKeys "100" "offer-42"
        (freshWorld sampleLedger)).2 = Outcome.resolved (JsValue.string "success") ∧
    ∃ sourceAccount result,
      (ledgerServer.loadAccount (ledgerServer.loadAccount (freshWorld sampleLedger).net
          "DEST1").2 sampleKeys.publicKey).1 = Reply.fulfilled sourceAccount ∧
      (ledgerServer.submitTransaction
          (ledgerServer.loadAccount (ledgerServer.loadAccount (freshWorld sampleLedger).net
            "DEST1").2 sampleKeys.publicKey).2
          (signedPayment permissiveSdk
            { destinationId := "DEST1", sourceKeys := sampleKeys
              amount := "100", offerId := "offer-42" } sourceAccount)).1
        = Reply.fulfilled result ∧
      JsValue.string "success" ≠ JsValue.response result :=
  ⟨by decide,
   ((terminal_outcomes permissiveSdk ledgerServer "DEST1" sampleKeys "100" "offer-42"
      (freshWorld sampleLedger)).2 (JsValue.string "success") (by decide)).2⟩

/-- C7 (sequence determinism).  Take a server with a view `seq` of the sequence number
of each account such that a fulfilled load names the requested account and reports its
current sequence number, no load lowers a sequence number, and every accepted submission
advances the sequence number of the source account of the transaction.  Then of two
successive resolved calls with the same `sourceKeys`, each makes its own sender load and
builds its transaction on the account which that load returned (sequence number: the
loaded one plus one, so nothing is taken over from the earlier call), and the sequence
number of the second transaction is different from and strictly greater than the first. -/
theorem sequence_determinism {σ : Type} (sdk : Sdk) (server : Server σ)
    (seq : σ → String → Nat) (sourceKeys : Keypair)
    (destinationId₁ amount₁ offerId₁ destinationId₂ amount₂ offerId₂ : String)
    (w : World σ) (v₁ v₂ : JsValue)
    (hload : ∀ st id a, (server.loadAccount st id).1 = Reply.fulfilled a →
        a.accountId = id ∧ a.sequence = seq st id)
    (hkeep : ∀ st id other, seq st other ≤ seq (server.loadAccount st id).2 other)
    (hadvance : ∀ st tx r, (server.submitTransaction st tx).1 = Reply.fulfilled r →
        seq st tx.source < seq (server.submitTransaction st tx).2 tx.source)
    (h₁ : (makePayment sdk server destinationId₁ sourceKeys amount₁ offerId₁ w).2
            = Outcome.resolved v₁)
    (h₂ : (makePayment sdk server destinationId₂ sourceKeys amount₂ offerId₂
            (makePayment sdk server destinationId₁ sourceKeys amount₁ offerId₁ w).1).2
            = Outcome.resolved v₂) :
    ∃ (account₁ account₂ : Account) (tx₁ tx₂ : Transaction),
      (server.loadAccount (server.loadAccount w.net destinationId₁).2
          sourceKeys.publicKey).1 = Reply.fulfilled account₁ ∧
      (makePayment sdk server destinationId₁ sourceKeys amount₁ offerId₁ w).1.calls
        = w.calls ++
            [Call.loadAccount destinationId₁, Call.loadAccount sourceKeys.publicKey,
             Call.build (paymentBuilder
                { destinationId := destinationId₁, sourceKeys := sourceKeys
                  amount := amount₁, offerId := offerId₁ } account₁),
             Call.sign { tx₁ with signatures := [] } sourceKeys,
             Call.submitTransaction tx₁] ∧
      tx₁.sequence = account₁.sequence + 1 ∧
      (server.loadAccount
          (server.loadAccount
            (makePayment sdk server destinationId₁ sourceKeys amount₁ offerId₁ w).1.net
            destinationId₂).2
          sourceKeys.publicKey).1 = Reply.fulfilled account₂ ∧
      (makePayment sdk server destinationId₂ sourceKeys amount₂ offerId₂
          (makePayment sdk server destinationId₁ sourceKeys amount₁ offerId₁ w).1).1.calls
        = (makePayment sdk server destinationId₁ sourceKeys amount₁ offerId₁ w).1.calls ++
            [Call.loadAccount destinationId₂, Call.loadAccount sourceKeys.publicKey,
             Call.build (paymentBuilder
                { destinationId := destinationId₂, sourceKeys := sourceKeys
                  amount := amount₂, offerId := offerId₂ } account₂),
             Call.sign { tx₂ with signatures := [] } sourceKeys,
             Call.submitTransaction tx₂] ∧
      tx₂.sequence = account₂.sequence + 1 ∧
      tx₁.sequence < tx₂.sequence ∧
      tx₁.sequence ≠ tx₂.sequence := by
  obtain ⟨d₁, a₁, r₁, hd₁, hs₁, hsdk₁, hsub₁⟩ :=
    makePayment_resolved_inv sdk server destinationId₁ sourceKeys amount₁ offerId₁ w v₁ h₁
  have hmk₁ := makePayment_of_accepts sdk server destinationId₁ sourceKeys amount₁ offerId₁ w
    d₁ a₁ hd₁ hs₁ hsdk₁
  obtain ⟨d₂, a₂, r₂, hd₂, hs₂, hsdk₂, hsub₂⟩ :=
    makePayment_resolved_inv sdk server destinationId₂ sourceKeys amount₂ offerId₂ _ v₂ h₂
  have hmk₂ := makePayment_of_accepts sdk server destinationId₂ sourceKeys amount₂ offerId₂ _
    d₂ a₂ hd₂ hs₂ hsdk₂
  -- the sequence numbers seen by the two sender loads
  have hA₁ := hload _ _ _ hs₁
  have hA₂ := hload _ _ _ hs₂
  have hk₁ := hkeep (server.loadAccount w.net destinationId₁).2 sourceKeys.publicKey
    sourceKeys.publicKey
  have hadv := hadvance _ _ _ hsub₁
  have hsrc : (signedPayment sdk
      { destinationId := destinationId₁, sourceKeys := sourceKeys
        amount := amount₁, offerId := offerId₁ } a₁).source = sourceKeys.publicKey := by
    simp [signedPayment, Transaction.sign, TransactionBuilder.build, paymentBuilder, hA₁.1]
  rw [hsrc] at hadv
  have hnet : (makePayment sdk server destinationId₁ sourceKeys amount₁ offerId₁ w).1.net
      = (server.submitTransaction
          (server.loadAccount (server.loadAccount w.net destinationId₁).2
            sourceKeys.publicKey).2
          (signedPayment sdk
            { destinationId := destinationId₁, sourceKeys := sourceKeys
              amount := amount₁, offerId := offerId₁ } a₁)).2 := by
    rw [hmk₁]
  have hk₂ := hkeep
    (makePayment sdk server destinationId₁ sourceKeys amount₁ offerId₁ w).1.net
    destinationId₂ sourceKeys.publicKey
  rw [hnet] at hk₂
  have hseq₂ := hA₂.2
  rw [hnet] at hseq₂
  have hlt : a₁.sequence + 1 < a₂.sequence + 1 := by
    rw [hA₁.2, hseq₂]
    omega
  refine ⟨a₁, a₂,
    signedPayment sdk ⟨destinationId₁, sourceKeys, amount₁, offerId₁⟩ a₁,
    signedPayment sdk ⟨destinationId₂, sourceKeys, amount₂, offerId₂⟩ a₂,
    hs₁, ?_, rfl, hs₂, ?_, rfl, hlt, Nat.ne_of_lt hlt⟩
  · rw [hmk₁]
    simp [signedPayment, Transaction.sign, TransactionBuilder.build, paymentBuilder]
  · rw [hmk₂]
    simp [signedPayment, Transaction.sign, TransactionBuilder.build, paymentBuilder]

/-- C7 instantiated: two successive payments of the same sender on the sample ledger
use the sequence numbers 42 and 43. -/
theorem sequence_determinism_witness :
    (makePayment permissiveSdk ledgerServer "DEST1" sampleKeys "100" "offer-42"
        (freshWorld sampleLedger)).2 = Outcome.resolved (JsValue.string "success") ∧
    (makePayment permissiveSdk ledgerServer "DEST1" sampleKeys "5" "offer-43"
        (makePayment permissiveSdk ledgerServer "DEST1" sampleKeys "100" "offer-42"
          (freshWorld sampleLedger)).1).2 = Outcome.resolved (JsValue.string "success") ∧
    ∃ (tx₁ tx₂ : Transaction),
      Call.submitTransaction tx₁ ∈
        (makePayment permissiveSdk ledgerServer "DEST1" sampleKeys "100" "offer-42"
          (freshWorld sampleLedger)).1.calls ∧
      Call.submitTransaction tx₂ ∈
        (makePayment permissiveSdk ledgerServer "DEST1" sampleKeys "5" "offer-43"
          (makePayment permissiveSdk ledgerServer "DEST1" sampleKeys "100" "offer-42"
            (freshWorld sampleLedger)).1).1.calls ∧
      tx₁.sequence < tx₂.sequence :=
  have h := sequence_determinism permissiveSdk ledgerServer Ledger.sequenceOf sampleKeys
    "DEST1" "100" "offer-42" "DEST1" "5" "offer-43" (freshWorld sampleLedger)
    (JsValue.string "success") (JsValue.string "success")
    ledgerServer_load_sequence
    (fun st id other => by rw [ledgerServer_load_keeps])
    ledgerServer_submit_advances
    (by decide) (by decide)
  match h with
  | ⟨_, _, tx₁, tx₂, _, hc₁, _, _, hc₂, _, hlt, _⟩ =>
    ⟨by decide, by decide, tx₁, tx₂, by rw [hc₁]; simp, by rw [hc₂]; simp, hlt⟩

/-! ### Interleaved calls -/

/-- Invocation indices are stable when the schedule grows. -/
theorem invokedWith_append (ticks more : List Tick) (i : Nat) (a : Args)
    (h : invokedWith ticks i = some a) : invokedWith (ticks ++ more) i = some a := by
  unfold invokedWith at h ⊢
  obtain ⟨hi, -⟩ := List.getElem?_eq_some.1 h
  rw [List.filterMap_append, List.getElem?_append_left hi]
  exact h

/-- The events of a call in a trace that grew. -/
theorem callEvents_append (t₁ t₂ : List (Nat × Event)) (i : Nat) :
    callEvents (t₁ ++ t₂) i = callEvents t₁ i ++ callEvents t₂ i := by
  simp [callEvents]

/-- The events of a call among events that all belong to it. -/
theorem callEvents_same (es : List Event) (i : Nat) :
    callEvents (es.map (fun e => (i, e))) i = es := by
  induction es with
  | nil => rfl
  | cons e rest ih =>
    simp only [callEvents] at ih ⊢
    simp [List.filter_cons, ih]

/-- The events of a call among events that all belong to another call. -/
theorem callEvents_other (es : List Event) (i j : Nat) (h : j ≠ i) :
    callEvents (es.map (fun e => (j, e))) i = [] := by
  induction es with
  | nil => rfl
  | cons e rest ih =>
    simp only [callEvents] at ih ⊢
    simp [List.filter_cons, h, ih]

/-- An event of the trace is among the events of its call, and conversely. -/
theorem mem_callEvents (trace : List (Nat × Event)) (i : Nat) (e : Event) :
    e ∈ callEvents trace i ↔ (i, e) ∈ trace := by
  simp only [callEvents, List.mem_map, List.mem_filter, decide_eq_true_eq]
  constructor
  · rintro ⟨⟨j, e'⟩, ⟨hmem, hj⟩, he⟩
    simp only at hj he
    subst hj
    subst he
    exact hmem
  · intro h
    exact ⟨(i, e), ⟨h, rfl⟩, rfl⟩

/-- A call without events in the trace has no events. -/
theorem callEvents_of_fresh (trace : List (Nat × Event)) (i : Nat)
    (h : ∀ e, e ∈ trace → e.1 < i) : callEvents trace i = [] := by
  apply List.eq_nil_iff_forall_not_mem.2
  intro e he
  have := h _ ((mem_callEvents trace i e).1 he)
  exact Nat.lt_irrefl _ this

/-- What the variable holds after two lists of events. -/
theorem lastWritten_append (sdk : Sdk) (v : Option Transaction) (es₁ es₂ : List Event) :
    lastWritten sdk v (es₁ ++ es₂) = lastWritten sdk (lastWritten sdk v es₁) es₂ := by
  simp [lastWritten, List.foldl_append]

/-- Events without a signing do not write the variable. -/
theorem lastWritten_of_no_sign (sdk : Sdk) (v : Option Transaction) (es : List Event)
    (h : ∀ e, e ∈ es → ∀ t k, e ≠ Event.made (Call.sign t k)) :
    lastWritten sdk v es = v := by
  induction es generalizing v with
  | nil => rfl
  | cons e rest ih =>
    have hrest : ∀ e, e ∈ rest → ∀ t k, e ≠ Event.made (Call.sign t k) :=
      fun e he => h e (List.mem_cons_of_mem _ he)
    have he := h e (List.mem_cons_self _ _)
    have hstep : lastWritten sdk v (e :: rest) = lastWritten sdk v rest := by
      cases e with
      | account r => rfl
      | submitted r => rfl
      | made call =>
        cases call with
        | loadAccount id => rfl
        | build b => rfl
        | submitTransaction tx => rfl
        | sign t k => exact absurd rfl (he t k)
    rw [hstep]
    exact ih v hrest

/-- The destination callbacks leave the variable alone and make no signing. -/
theorem destinationLoaded_written (sdk : Sdk) (a : Args) (r : Reply Account) (m : Module) :
    (destinationLoaded a r m).module.transaction
      = lastWritten sdk m.transaction
          (Event.account r :: (destinationLoaded a r m).calls.map Event.made) := by
  cases r with
  | fulfilled acct => rfl
  | rejected e =>
    by_cases hnf : e.isNotFoundError = true <;>
      simp [destinationLoaded, hnf, catchAll, lastWritten]
  | thrown e => rfl
  | never => rfl

/-- The submission callbacks leave the variable alone and make no call. -/
theorem submitSettled_written (sdk : Sdk) (tx : Transaction) (r : Reply SubmitResult)
    (m : Module) :
    (submitSettled tx r m).module.transaction
      = lastWritten sdk m.transaction
          (Event.submitted r :: (submitSettled tx r m).calls.map Event.made) := by
  cases r <;> rfl

/-- The sender-load callback writes the variable exactly when it signs: the built
transaction, signed in place unless the signing throws. -/
theorem senderLoaded_written (sdk : Sdk) (a : Args) (r : Reply Account) (m : Module) :
    (senderLoaded sdk a r m).module.transaction
      = lastWritten sdk m.transaction
          (Event.account r :: (senderLoaded sdk a r m).calls.map Event.made) := by
  cases r with
  | never => rfl
  | rejected e => rfl
  | thrown e => rfl
  | fulfilled acct =>
    rcases hp : sdk.paymentError
        { destination := a.destinationId, asset := Asset.native, amount := a.amount } with _ | e
    · rcases hm : sdk.memoTextError a.offerId with _ | e
      · rcases hb : sdk.buildError (paymentBuilder a acct) with _ | e
        · rcases hs : sdk.signError (paymentBuilder a acct).build a.sourceKeys with _ | e
          · rw [senderLoaded_of_accepts sdk a acct m ⟨hp, hm, hb, hs⟩]
            simp [lastWritten, hs, signedPayment]
          · simp [senderLoaded, hp, hm, hb, hs, catchAll, lastWritten]
        · simp [senderLoaded, hp, hm, hb, catchAll, lastWritten]
      · simp [senderLoaded, hp, hm, catchAll, lastWritten]
    · simp [senderLoaded, hp, catchAll, lastWritten]

/-- The story of a call after its destination load ended. -/
theorem destinationLoaded_story (sdk : Sdk) (a : Args) (r : Reply Account) (m : Module)
    (hr : r.isNever = false) :
    Story sdk a (destinationLoaded a r m).phase
      ([Event.made (Call.loadAccount a.destinationId)] ++
        Event.account r :: (destinationLoaded a r m).calls.map Event.made) := by
  cases r with
  | never => simp [Reply.isNever] at hr
  | fulfilled d => exact ⟨d, rfl⟩
  | thrown e => exact Or.inl ⟨_, rfl⟩
  | rejected e =>
    by_cases hnf : e.isNotFoundError = true
    · simp only [destinationLoaded, hnf, catchAll]
      exact Or.inl ⟨_, rfl⟩
    · simp only [destinationLoaded, hnf, catchAll]
      exact Or.inl ⟨_, rfl⟩

/-- The story of a call after its sender load ended. -/
theorem senderLoaded_story (sdk : Sdk) (a : Args) (d : Account) (r : Reply Account)
    (m : Module) (hr : r.isNever = false) :
    Story sdk a (senderLoaded sdk a r m).phase
      ([Event.made (Call.loadAccount a.destinationId), Event.account (Reply.fulfilled d),
        Event.made (Call.loadAccount a.sourceKeys.publicKey)] ++
        Event.account r :: (senderLoaded sdk a r m).calls.map Event.made) := by
  cases r with
  | never => simp [Reply.isNever] at hr
  | rejected e => exact Or.inr (Or.inl ⟨d, _, rfl⟩)
  | thrown e => exact Or.inr (Or.inl ⟨d, _, rfl⟩)
  | fulfilled acct =>
    rcases hp : sdk.paymentError
        { destination := a.destinationId, asset := Asset.native, amount := a.amount } with _ | e
    · rcases hm : sdk.memoTextError a.offerId with _ | e
      · rcases hb : sdk.buildError (paymentBuilder a acct) with _ | e
        · rcases hs : sdk.signError (paymentBuilder a acct).build a.sourceKeys with _ | e
          · rw [senderLoaded_of_accepts sdk a acct m ⟨hp, hm, hb, hs⟩]
            exact ⟨d, acct, ⟨hp, hm, hb, hs⟩, rfl, rfl⟩
          · simp only [senderLoaded, hp, hm, hb, hs, catchAll]
            exact Or.inr (Or.inr (Or.inr (Or.inl ⟨d, acct, hp, hm, hb, rfl⟩)))
        · simp only [senderLoaded, hp, hm, hb, catchAll]
          exact Or.inr (Or.inr (Or.inl ⟨d, acct, rfl⟩))
      · simp only [senderLoaded, hp, hm, catchAll]
        exact Or.inr (Or.inl ⟨d, _, rfl⟩)
    · simp only [senderLoaded, hp, catchAll]
      exact Or.inr (Or.inl ⟨d, _, rfl⟩)

/-- The story of a call after its submission ended. -/
theorem submitSettled_story (sdk : Sdk) (a : Args) (d sourceAccount : Account)
    (r : Reply SubmitResult) (m : Module) (hsdk : SdkAccepts sdk a sourceAccount)
    (hr : r.isNever = false) :
    Story sdk a (submitSettled (signedPayment sdk a sourceAccount) r m).phase
      (pathToSubmit sdk a d sourceAccount ++
        Event.submitted r ::
          (submitSettled (signedPayment sdk a sourceAccount) r m).calls.map Event.made) := by
  cases r with
  | never => simp [Reply.isNever] at hr
  | fulfilled result =>
    exact Or.inr (Or.inr (Or.inr (Or.inr ⟨d, sourceAccount, _, hsdk, rfl⟩)))
  | rejected e =>
    exact Or.inr (Or.inr (Or.inr (Or.inr ⟨d, sourceAccount, _, hsdk, rfl⟩)))
  | thrown e =>
    exact Or.inr (Or.inr (Or.inr (Or.inr ⟨d, sourceAccount, _, hsdk, rfl⟩)))

/-- A call in flight carries the arguments of its invocation. -/
theorem invokedWith_of_running (sdk : Sdk) (m : Module) (ticks : List Tick) (s : System)
    (i : Nat) (c : CallState) (h : Coherent sdk m ticks s) (hc : s.running[i]? = some c) :
    invokedWith ticks i = some c.args := by
  unfold invokedWith
  rw [← h.1, List.getElem?_map, hc]
  rfl

/-- A tick that runs no callback keeps the invariant. -/
theorem coherent_of_ignored (sdk : Sdk) (m : Module) (ticks : List Tick) (s : System)
    (k : Tick) (h : Coherent sdk m ticks s) (hk : k.invoked = none) :
    Coherent sdk m (ticks ++ [k]) s := by
  obtain ⟨hA, hB, hC, hD, hE⟩ := h
  refine ⟨?_, hB, hC, ?_, hE⟩
  · rw [hA, List.filterMap_append]
    simp [hk]
  · intro i r hmem
    exact List.mem_append_left _ (hD i r hmem)

/-- Recording a turn keeps the invariant, when the turn continues the story of its
call, its reply is the one of the tick, and it writes the variable as its signings say. -/
theorem coherent_of_record (sdk : Sdk) (m : Module) (ticks : List Tick) (s : System)
    (k : Tick) (i : Nat) (c : CallState) (got : Event) (t : Turn)
    (h : Coherent sdk m ticks s) (hk : k.invoked = none) (hc : s.running[i]? = some c)
    (hstory : Story sdk c.args t.phase
      (callEvents s.trace i ++ got :: t.calls.map Event.made))
    (hgot : ∀ r, got = Event.account r → k = Tick.account i r)
    (hwrite : t.module.transaction
      = lastWritten sdk s.module.transaction (got :: t.calls.map Event.made)) :
    Coherent sdk m (ticks ++ [k]) (s.record i c.args got t) := by
  obtain ⟨hA, hB, hC, hD, hE⟩ := h
  have hi : i < s.running.length := (List.getElem?_eq_some.1 hc).1
  refine ⟨?_, ?_, ?_, ?_, ?_⟩
  · show (s.running.set i { args := c.args, phase := t.phase }).map (fun c => c.args)
        = (ticks ++ [k]).filterMap Tick.invoked
    have hset : (s.running.set i { args := c.args, phase := t.phase }).map (fun c => c.args)
        = s.running.map (fun c => c.args) := by
      apply List.ext_getElem?
      intro j
      simp only [List.getElem?_map, List.getElem?_set]
      by_cases hij : i = j
      · subst hij
        simp [hi, hc]
      · simp [hij]
    rw [hset, hA, List.filterMap_append]
    simp [hk]
  · intro j c' hc'
    simp only [System.record] at hc' ⊢
    rw [callEvents_append]
    by_cases hij : i = j
    · subst hij
      rw [List.getElem?_set_self hi] at hc'
      cases hc'
      rw [callEvents_same]
      exact hstory
    · rw [List.getElem?_set_ne hij] at hc'
      rw [callEvents_other _ _ _ hij, List.append_nil]
      exact hB j c' hc'
  · intro e he
    simp only [System.record, List.mem_append, List.mem_map, List.length_set] at he ⊢
    rcases he with hold | ⟨e', -, heq⟩
    · exact hC e hold
    · subst heq
      exact hi
  · intro j r hmem
    simp only [System.record, List.mem_append, List.mem_map, List.mem_cons] at hmem
    rcases hmem with hold | ⟨e', hin, heq⟩
    · exact List.mem_append_left _ (hD j r hold)
    · cases heq
      rcases hin with hin | ⟨call, -, hcall⟩
      · rw [hgot r hin.symm]
        simp
      · cases hcall
  · show t.module.transaction = lastWritten sdk m.transaction
        ((s.trace ++ (got :: t.calls.map Event.made).map (fun e => (i, e))).map (fun e => e.2))
    rw [List.map_append, lastWritten_append, ← hE, hwrite]
    congr 1
    simp [Function.comp_def]

/-- Every tick of the event loop keeps the invariant. -/
theorem tick_coherent (sdk : Sdk) (m : Module) (ticks : List Tick) (s : System) (k : Tick)
    (h : Coherent sdk m ticks s) : Coherent sdk m (ticks ++ [k]) (tick sdk s k) := by
  cases k with
  | invoke a =>
    obtain ⟨hA, hB, hC, hD, hE⟩ := h
    have hfresh : callEvents s.trace s.running.length = [] :=
      callEvents_of_fresh _ _ hC
    refine ⟨?_, ?_, ?_, ?_, ?_⟩
    · simp [tick, start, hA, Tick.invoked]
    · intro j c hc
      simp only [tick, start, List.map_cons, List.map_nil] at hc ⊢
      rw [callEvents_append]
      by_cases hj : j < s.running.length
      · rw [List.getElem?_append_left hj] at hc
        have hne : s.running.length ≠ j := Nat.ne_of_gt hj
        have := callEvents_other [Event.made (Call.loadAccount a.destinationId)] j
          s.running.length hne
        simp only [List.map_cons, List.map_nil] at this
        rw [this, List.append_nil]
        exact hB j c hc
      · have hle : s.running.length ≤ j := Nat.le_of_not_lt hj
        rw [List.getElem?_append_right hle] at hc
        have hj0 : j - s.running.length = 0 := by
          by_contra hne
          have hlt : 0 < j - s.running.length := Nat.pos_of_ne_zero hne
          have hnone : [({ args := a, phase := Phase.awaitingDestination } : CallState)][
              j - s.running.length]? = none := by
            apply List.getElem?_eq_none
            exact hlt
          rw [hnone] at hc
          cases hc
        have hjeq : j = s.running.length := by omega
        subst hjeq
        simp only [Nat.sub_self, List.getElem?_cons_zero] at hc
        cases hc
        rw [hfresh]
        have := callEvents_same [Event.made (Call.loadAccount a.destinationId)]
          s.running.length
        simp only [List.map_cons, List.map_nil] at this
        rw [this]
        rfl
    · intro e he
      simp only [tick, start, List.map_cons, List.map_nil, List.mem_append,
        List.mem_singleton, List.length_append, List.length_singleton] at he ⊢
      rcases he with hold | hnew
      · exact Nat.lt_succ_of_lt (hC e hold)
      · subst hnew
        exact Nat.lt_succ_self _
    · intro j r hmem
      simp only [tick, start, List.map_cons, List.map_nil, List.mem_append,
        List.mem_singleton] at hmem
      rcases hmem with hold | hnew
      · exact List.mem_append_left _ (hD j r hold)
      · cases hnew
    · simp only [tick, start, List.map_cons, List.map_nil, List.map_append]
      rw [lastWritten_append, ← hE]
      rfl
  | account i r =>
    simp only [tick]
    by_cases hr : r.isNever = true
    · simp only [hr, if_true]
      exact coherent_of_ignored sdk m ticks s _ h rfl
    · have hr' : r.isNever = false := by simpa using hr
      simp only [hr', Bool.false_eq_true, if_false]
      cases hc : s.running[i]? with
      | none => exact coherent_of_ignored sdk m ticks s _ h rfl
      | some c =>
        simp only
        have hstory := h.2.1 i c hc
        cases hph : c.phase with
        | awaitingDestination =>
          simp only
          rw [hph] at hstory
          apply coherent_of_record sdk m ticks s (Tick.account i r) i c _ _ h rfl hc
          · have hs : callEvents s.trace i
                = [Event.made (Call.loadAccount c.args.destinationId)] := hstory
            rw [hs]
            exact destinationLoaded_story sdk c.args r s.module hr'
          · intro r' hr''
            cases hr''
            rfl
          · exact destinationLoaded_written sdk c.args r s.module
        | awaitingSender =>
          simp only
          rw [hph] at hstory
          obtain ⟨d, hs⟩ := hstory
          apply coherent_of_record sdk m ticks s (Tick.account i r) i c _ _ h rfl hc
          · rw [hs]
            exact senderLoaded_story sdk c.args d r s.module hr'
          · intro r' hr''
            cases hr''
            rfl
          · exact senderLoaded_written sdk c.args r s.module
        | awaitingSubmit tx => exact coherent_of_ignored sdk m ticks s _ h rfl
        | settled o => exact coherent_of_ignored sdk m ticks s _ h rfl
  | submitted i r =>
    simp only [tick]
    by_cases hr : r.isNever = true
    · simp only [hr, if_true]
      exact coherent_of_ignored sdk m ticks s _ h rfl
    · have hr' : r.isNever = false := by simpa using hr
      simp only [hr', Bool.false_eq_true, if_false]
      cases hc : s.running[i]? with
      | none => exact coherent_of_ignored sdk m ticks s _ h rfl
      | some c =>
        simp only
        have hstory := h.2.1 i c hc
        cases hph : c.phase with
        | awaitingSubmit tx =>
          simp only
          rw [hph] at hstory
          obtain ⟨d, acct, hsdk, htx, hs⟩ := hstory
          subst htx
          apply coherent_of_record sdk m ticks s (Tick.submitted i r) i c _ _ h rfl hc
          · rw [hs]
            exact submitSettled_story sdk c.args d acct r s.module hsdk hr'
          · intro r' hr''
            cases hr''
          · exact submitSettled_written sdk _ r s.module
        | awaitingDestination => exact coherent_of_ignored sdk m ticks s _ h rfl
        | awaitingSender => exact coherent_of_ignored sdk m ticks s _ h rfl
        | settled o => exact coherent_of_ignored sdk m ticks s _ h rfl

/-- The invariant holds after every schedule, from any initial module state. -/
theorem runTicks_coherent (sdk : Sdk) (m : Module) (ticks : List Tick) :
    Coherent sdk m ticks (runTicks sdk (System.initial m) ticks) := by
  induction ticks using List.reverseRecOn with
  | nil =>
    refine ⟨rfl, ?_, ?_, ?_, rfl⟩
    · intro i c hc
      simp [runTicks, System.initial] at hc
    · intro e he
      simp [runTicks, System.initial] at he
    · intro i r he
      simp [runTicks, System.initial] at he
  | append_singleton ticks k ih =>
    have : runTicks sdk (System.initial m) (ticks ++ [k])
        = tick sdk (runTicks sdk (System.initial m) ticks) k := by
      simp [runTicks, List.foldl_append]
    rw [this]
    exact tick_coherent sdk m ticks _ k ih

/-- A call whose events contain a signing has loaded the destination and then the
sender, has built on the reply of the sender load with an SDK that did not throw, and
has signed that build with its own keys; it signs once. -/
theorem story_of_sign (sdk : Sdk) (a : Args) (p : Phase) (es : List Event)
    (t : Transaction) (k : Keypair) (h : Story sdk a p es)
    (hmem : Event.made (Call.sign t k) ∈ es) :
    ∃ d sourceAccount post,
      sdk.paymentError
        { destination := a.destinationId, asset := Asset.native, amount := a.amount } = none ∧
      sdk.memoTextError a.offerId = none ∧
      sdk.buildError (paymentBuilder a sourceAccount) = none ∧
      t = (paymentBuilder a sourceAccount).build ∧ k = a.sourceKeys ∧
      es = (pathToSubmit sdk a d sourceAccount).take 6 ++ post ∧
      (∀ e, e ∈ post → ∀ t' k', e ≠ Event.made (Call.sign t' k')) := by
  have key : ∀ d sourceAccount post,
      sdk.paymentError
        { destination := a.destinationId, asset := Asset.native, amount := a.amount } = none →
      sdk.memoTextError a.offerId = none →
      sdk.buildError (paymentBuilder a sourceAccount) = none →
      es = (pathToSubmit sdk a d sourceAccount).take 6 ++ post →
      (∀ e, e ∈ post → ∀ t' k', e ≠ Event.made (Call.sign t' k')) →
      ∃ d sourceAccount post,
        sdk.paymentError
          { destination := a.destinationId, asset := Asset.native, amount := a.amount }
          = none ∧
        sdk.memoTextError a.offerId = none ∧
        sdk.buildError (paymentBuilder a sourceAccount) = none ∧
        t = (paymentBuilder a sourceAccount).build ∧ k = a.sourceKeys ∧
        es = (pathToSubmit sdk a d sourceAccount).take 6 ++ post ∧
        (∀ e, e ∈ post → ∀ t' k', e ≠ Event.made (Call.sign t' k')) := by
    intro d acct post hp hm hb hes hpost
    have hmem' := hmem
    rw [hes] at hmem'
    simp only [pathToSubmit, List.take, List.mem_append, List.mem_cons, List.mem_nil_iff,
      Event.made.injEq, Call.sign.injEq, or_false, false_or, reduceCtorEq] at hmem'
    rcases hmem' with ⟨ht, hk⟩ | hin
    · exact ⟨d, acct, post, hp, hm, hb, ht, hk, hes, hpost⟩
    · exact absurd rfl (hpost _ hin t k)
  cases p with
  | awaitingDestination =>
    have hs : es = [Event.made (Call.loadAccount a.destinationId)] := h
    rw [hs] at hmem
    simp at hmem
  | awaitingSender =>
    obtain ⟨d, hs⟩ := h
    rw [hs] at hmem
    simp at hmem
  | awaitingSubmit tx =>
    obtain ⟨d, acct, ⟨hp, hm, hb, -⟩, -, hs⟩ := h
    refine key d acct [Event.made (Call.submitTransaction (signedPayment sdk a acct))]
      hp hm hb (by rw [hs]; rfl) ?_
    intro e he t' k'
    simp only [List.mem_singleton] at he
    subst he
    simp
  | settled o =>
    rcases h with ⟨r, hs⟩ | ⟨d, r, hs⟩ | ⟨d, acct, hs⟩ | ⟨d, acct, hp, hm, hb, hs⟩ |
      ⟨d, acct, r, ⟨hp, hm, hb, -⟩, hs⟩
    · rw [hs] at hmem
      simp at hmem
    · rw [hs] at hmem
      simp at hmem
    · rw [hs] at hmem
      simp [pathToSubmit] at hmem
    · exact key d acct [] hp hm hb (by rw [hs]; simp) (by simp)
    · refine key d acct
        [Event.made (Call.submitTransaction (signedPayment sdk a acct)), Event.submitted r]
        hp hm hb (by rw [hs]; rfl) ?_
      intro e he t' k'
      simp only [List.mem_cons, List.mem_singleton, List.mem_nil_iff, or_false] at he
      rcases he with he | he <;> subst he <;> simp

/-- A call whose events contain a submission has gone the whole way: its events are
the path to the submission of its own signed payment, followed by nothing or by the
end of that submission. -/
theorem story_of_submit (sdk : Sdk) (a : Args) (p : Phase) (es : List Event)
    (tx : Transaction) (h : Story sdk a p es)
    (hmem : Event.made (Call.submitTransaction tx) ∈ es) :
    ∃ d sourceAccount post,
      SdkAccepts sdk a sourceAccount ∧
      tx = signedPayment sdk a sourceAccount ∧
      es = pathToSubmit sdk a d sourceAccount ++ post ∧
      (post = [] ∨ ∃ r, post = [Event.submitted r]) := by
  cases p with
  | awaitingDestination =>
    have hs : es = [Event.made (Call.loadAccount a.destinationId)] := h
    rw [hs] at hmem
    simp at hmem
  | awaitingSender =>
    obtain ⟨d, hs⟩ := h
    rw [hs] at hmem
    simp at hmem
  | awaitingSubmit tx' =>
    obtain ⟨d, acct, hsdk, -, hs⟩ := h
    rw [hs] at hmem
    simp [pathToSubmit] at hmem
    exact ⟨d, acct, [], hsdk, hmem, by rw [hs]; simp, Or.inl rfl⟩
  | settled o =>
    rcases h with ⟨r, hs⟩ | ⟨d, r, hs⟩ | ⟨d, acct, hs⟩ | ⟨d, acct, hp, hm, hb, hs⟩ |
      ⟨d, acct, r, hsdk, hs⟩
    · rw [hs] at hmem
      simp at hmem
    · rw [hs] at hmem
      simp at hmem
    · rw [hs] at hmem
      simp [pathToSubmit] at hmem
    · rw [hs] at hmem
      simp [pathToSubmit] at hmem
    · rw [hs] at hmem
      simp [pathToSubmit] at hmem
      exact ⟨d, acct, [Event.submitted r], hsdk, hmem, hs, Or.inr ⟨r, rfl⟩⟩

/-- The call behind an event of the trace: it is in flight, it carries the arguments of
its invocation, and its events tell the story of its phase. -/
theorem call_of_event (sdk : Sdk) (m : Module) (ticks : List Tick) (i : Nat) (e : Event)
    (hmem : (i, e) ∈ (runTicks sdk (System.initial m) ticks).trace) :
    ∃ a p, invokedWith ticks i = some a ∧
      Story sdk a p (callEvents (runTicks sdk (System.initial m) ticks).trace i) := by
  have hinv := runTicks_coherent sdk m ticks
  have hi : i < (runTicks sdk (System.initial m) ticks).running.length :=
    hinv.2.2.1 _ hmem
  have hc : (runTicks sdk (System.initial m) ticks).running[i]?
      = some ((runTicks sdk (System.initial m) ticks).running[i]) :=
    List.getElem?_eq_getElem hi
  exact ⟨_, _, invokedWith_of_running sdk m ticks _ i _ hinv hc, hinv.2.1 i _ hc⟩

/-- C9 (per-call ownership of the transaction).  In every schedule of invocations and
replies, over any number of calls sharing the module-level variable and from any
initial module state: when call `i` submits a transaction, the events of call `i` are,
in this order, its destination load, the reply to it, its sender load, the reply
`sourceAccount` to that load (a reply of the schedule addressed to call `i`), the build
on `sourceAccount` from the destination, amount and offer id of call `i`, the signing of
that build with the keys of call `i`, and the submission, followed at most by the end of
that submission; the submitted transaction is that build with the one signature of the
keys of call `i`.  Likewise whatever call `i` signs is the transaction it built itself
on the reply to its own sender load, it signs it with its own keys, and it signs once.
So no call signs or submits what another call built, whatever the variable holds. -/
theorem per_call_ownership (sdk : Sdk) (m : Module) (ticks : List Tick) :
    (∀ i tx, (i, Event.made (Call.submitTransaction tx))
          ∈ (runTicks sdk (System.initial m) ticks).trace →
      ∃ a d sourceAccount post,
        invokedWith ticks i = some a ∧
        Tick.account i (Reply.fulfilled sourceAccount) ∈ ticks ∧
        callEvents (runTicks sdk (System.initial m) ticks).trace i
          = [Event.made (Call.loadAccount a.destinationId),
             Event.account (Reply.fulfilled d),
             Event.made (Call.loadAccount a.sourceKeys.publicKey),
             Event.account (Reply.fulfilled sourceAccount),
             Event.made (Call.build (paymentBuilder a sourceAccount)),
             Event.made (Call.sign (paymentBuilder a sourceAccount).build a.sourceKeys),
             Event.made (Call.submitTransaction tx)] ++ post ∧
        (post = [] ∨ ∃ r, post = [Event.submitted r]) ∧
        tx = { source := sourceAccount.accountId
               sequence := sourceAccount.sequence + 1
               operations :=
                 [Operation.payment
                   { destination := a.destinationId, asset := Asset.native
                     amount := a.amount }]
               memo := Memo.text a.offerId
               signatures :=
                 [{ hint := a.sourceKeys.publicKey
                    signature :=
                      sdk.signature (paymentBuilder a sourceAccount).build a.sourceKeys }] }) ∧
    (∀ i t k, (i, Event.made (Call.sign t k))
          ∈ (runTicks sdk (System.initial m) ticks).trace →
      ∃ a d sourceAccount post,
        invokedWith ticks i = some a ∧
        Tick.account i (Reply.fulfilled sourceAccount) ∈ ticks ∧
        callEvents (runTicks sdk (System.initial m) ticks).trace i
          = [Event.made (Call.loadAccount a.destinationId),
             Event.account (Reply.fulfilled d),
             Event.made (Call.loadAccount a.sourceKeys.publicKey),
             Event.account (Reply.fulfilled sourceAccount),
             Event.made (Call.build (paymentBuilder a sourceAccount)),
             Event.made (Call.sign t k)] ++ post ∧
        (∀ e, e ∈ post → ∀ t' k', e ≠ Event.made (Call.sign t' k')) ∧
        t = { source := sourceAccount.accountId
              sequence := sourceAccount.sequence + 1
              operations :=
                [Operation.payment
                  { destination := a.destinationId, asset := Asset.native
                    amount := a.amount }]
              memo := Memo.text a.offerId
              signatures := [] } ∧
        k = a.sourceKeys) := by
  have hD := (runTicks_coherent sdk m ticks).2.2.2.1
  constructor
  · intro i tx hmem
    obtain ⟨a, p, ha, hstory⟩ := call_of_event sdk m ticks i _ hmem
    obtain ⟨d, acct, post, -, htx, hes, hpost⟩ :=
      story_of_submit sdk a p _ tx hstory ((mem_callEvents _ _ _).2 hmem)
    have hacct : (i, Event.account (Reply.fulfilled acct))
        ∈ (runTicks sdk (System.initial m) ticks).trace := by
      apply (mem_callEvents _ _ _).1
      rw [hes]
      simp [pathToSubmit]
    refine ⟨a, d, acct, post, ha, hD i _ hacct, ?_, hpost, ?_⟩
    · rw [hes, htx]
      rfl
    · rw [htx]
      simp [signedPayment, Transaction.sign, TransactionBuilder.build, paymentBuilder]
  · intro i t k hmem
    obtain ⟨a, p, ha, hstory⟩ := call_of_event sdk m ticks i _ hmem
    obtain ⟨d, acct, post, -, -, -, ht, hk, hes, hpost⟩ :=
      story_of_sign sdk a p _ t k hstory ((mem_callEvents _ _ _).2 hmem)
    have hacct : (i, Event.account (Reply.fulfilled acct))
        ∈ (runTicks sdk (System.initial m) ticks).trace := by
      apply (mem_callEvents _ _ _).1
      rw [hes]
      simp [pathToSubmit]
    refine ⟨a, d, acct, post, ha, hD i _ hacct, ?_, hpost, ?_, hk⟩
    · rw [hes, ht, hk]
      rfl
    · rw [ht]
      rfl

/-- C9 instantiated on `sampleSchedule`: call 1 builds after call 0 was invoked and
before call 0 builds, so the module-level variable ends up holding the transaction of
call 0; all the same call 1 has submitted its own payment, built on the reply to its
own sender load and signed with its own keys. -/
theorem per_call_ownership_witness :
    (runTicks permissiveSdk (System.initial { transaction := none, console := [] })
        sampleSchedule).module.transaction
      = some (signedPayment permissiveSdk
          { destinationId := "DEST1", sourceKeys := sampleKeys
            amount := "100", offerId := "offer-42" }
          { accountId := "SENDER", sequence := 41 }) ∧
    (1, Event.made (Call.submitTransaction (signedPayment permissiveSdk
          { destinationId := "DEST2", sourceKeys := otherKeys
            amount := "7", offerId := "offer-43" }
          { accountId := "BUYER2", sequence := 12 })))
      ∈ (runTicks permissiveSdk (System.initial { transaction := none, console := [] })
          sampleSchedule).trace ∧
    ∃ a d sourceAccount post,
      invokedWith sampleSchedule 1 = some a ∧
      Tick.account 1 (Reply.fulfilled sourceAccount) ∈ sampleSchedule ∧
      callEvents (runTicks permissiveSdk
          (System.initial { transaction := none, console := [] }) sampleSchedule).trace 1
        = [Event.made (Call.loadAccount a.destinationId),
           Event.account (Reply.fulfilled d),
           Event.made (Call.loadAccount a.sourceKeys.publicKey),
           Event.account (Reply.fulfilled sourceAccount),
           Event.made (Call.build (paymentBuilder a sourceAccount)),
           Event.made (Call.sign (paymentBuilder a sourceAccount).build a.sourceKeys),
           Event.made (Call.submitTransaction (signedPayment permissiveSdk
              { destinationId := "DEST2", sourceKeys := otherKeys
                amount := "7", offerId := "offer-43" }
              { accountId := "BUYER2", sequence := 12 }))] ++ post :=
  ⟨by decide, by decide,
   match (per_call_ownership permissiveSdk { transaction := none, console := [] }
      sampleSchedule).1 1 _ (by decide) with
   | ⟨a, d, acct, post, ha, ht, hes, _, _⟩ => ⟨a, d, acct, post, ha, ht, hes⟩⟩

/-! ### One call alone, as a schedule -/

/-- The sequential driver is the event loop with one call in flight: run on the
schedule of the server replies, the event loop ends with the module state, the promise
state and the collaborator calls of `makePayment`. -/
theorem makePayment_eq_solo {σ : Type} (sdk : Sdk) (server : Server σ)
    (destinationId : String) (sourceKeys : Keypair) (amount offerId : String) (w : World σ) :
    (runTicks sdk (System.initial w.module)
        (soloSchedule sdk server
          { destinationId := destinationId, sourceKeys := sourceKeys
            amount := amount, offerId := offerId } w.net)).module
      = (makePayment sdk server destinationId sourceKeys amount offerId w).1.module ∧
    (runTicks sdk (System.initial w.module)
        (soloSchedule sdk server
          { destinationId := destinationId, sourceKeys := sourceKeys
            amount := amount, offerId := offerId } w.net)).running.map
          (fun c => c.phase.outcome)
      = [(makePayment sdk server destinationId sourceKeys amount offerId w).2] ∧
    w.calls ++
        (runTicks sdk (System.initial w.module)
          (soloSchedule sdk server
            { destinationId := destinationId, sourceKeys := sourceKeys
              amount := amount, offerId := offerId } w.net)).trace.filterMap
          (fun e => e.2.call)
      = (makePayment sdk server destinationId sourceKeys amount offerId w).1.calls := by
  rcases h1 : (server.loadAccount w.net destinationId).1 with a1 | e1 | x1 | _
  · rcases h2 : (server.loadAccount (server.loadAccount w.net destinationId).2
        sourceKeys.publicKey).1 with a2 | e2 | x2 | _
    · rcases hp : sdk.paymentError
          { destination := destinationId, asset := Asset.native, amount := amount } with _ | e
      · rcases hm : sdk.memoTextError offerId with _ | e
        · rcases hb : sdk.buildError
              (paymentBuilder ⟨destinationId, sourceKeys, amount, offerId⟩ a2) with _ | e
          · rcases hs : sdk.signError
                (paymentBuilder ⟨destinationId, sourceKeys, amount, offerId⟩ a2).build
                sourceKeys with _ | e
            · have hS := senderLoaded_of_accepts sdk
                ⟨destinationId, sourceKeys, amount, offerId⟩ a2 w.module ⟨hp, hm, hb, hs⟩
              rw [makePayment_of_accepts sdk server destinationId sourceKeys amount offerId w
                a1 a2 h1 h2 ⟨hp, hm, hb, hs⟩]
              rcases h3 : (server.submitTransaction
                  (server.loadAccount (server.loadAccount w.net destinationId).2
                    sourceKeys.publicKey).2
                  (signedPayment sdk ⟨destinationId, sourceKeys, amount, offerId⟩ a2)).1
                with r | e3 | x3 | _ <;>
              simp [soloSchedule, runTicks, tick, System.record, System.initial, start,
                destinationLoaded, submitSettled, catchAll, h1, h2, h3, hS, Reply.isNever,
                Phase.outcome, Event.call]
            · simp [soloSchedule, runTicks, tick, System.record, System.initial, start,
                makePayment, destinationLoaded, senderLoaded, catchAll, h1, h2, hp, hm, hb,
                hs, Reply.isNever, Phase.outcome, Event.call]
          · simp [soloSchedule, runTicks, tick, System.record, System.initial, start,
              makePayment, destinationLoaded, senderLoaded, catchAll, h1, h2, hp, hm, hb,
              Reply.isNever, Phase.outcome, Event.call]
        · simp [soloSchedule, runTicks, tick, System.record, System.initial, start,
            makePayment, destinationLoaded, senderLoaded, catchAll, h1, h2, hp, hm,
            Reply.isNever, Phase.outcome, Event.call]
      · simp [soloSchedule, runTicks, tick, System.record, System.initial, start,
          makePayment, destinationLoaded, senderLoaded, catchAll, h1, h2, hp,
          Reply.isNever, Phase.outcome, Event.call]
    · simp [soloSchedule, runTicks, tick, System.record, System.initial, start,
        makePayment, destinationLoaded, senderLoaded, catchAll, h1, h2,
        Reply.isNever, Phase.outcome, Event.call]
    · simp [soloSchedule, runTicks, tick, System.record, System.initial, start,
        makePayment, destinationLoaded, senderLoaded, catchAll, h1, h2,
        Reply.isNever, Phase.outcome, Event.call]
    · simp [soloSchedule, runTicks, tick, System.record, System.initial, start,
        makePayment, destinationLoaded, senderLoaded, catchAll, h1, h2,
        Reply.isNever, Phase.outcome, Event.call]
  · by_cases hnf : e1.isNotFoundError = true <;>
      simp [soloSchedule, runTicks, tick, System.record, System.initial, start,
        makePayment, destinationLoaded, catchAll, h1, hnf,
        Reply.isNever, Phase.outcome, Event.call]
  · simp [soloSchedule, runTicks, tick, System.record, System.initial, start,
      makePayment, destinationLoaded, catchAll, h1,
      Reply.isNever, Phase.outcome, Event.call]
  · simp [soloSchedule, runTicks, tick, System.record, System.initial, start,
      makePayment, destinationLoaded, catchAll, h1,
      Reply.isNever, Phase.outcome, Event.call]

/-! ### The module-level variable -/

/-- One call that runs alone: when both loads are fulfilled and the payment operation,
the memo and the build do not throw, the variable afterwards holds the transaction
built by this call (signed unless the signing threw); otherwise it keeps its value. -/
theorem makePayment_transaction {σ : Type} (sdk : Sdk) (server : Server σ)
    (destinationId : String) (sourceKeys : Keypair) (amount offerId : String) (w : World σ) :
    (∀ destAccount sourceAccount,
      (server.loadAccount w.net destinationId).1 = Reply.fulfilled destAccount →
      (server.loadAccount (server.loadAccount w.net destinationId).2
          sourceKeys.publicKey).1 = Reply.fulfilled sourceAccount →
      sdk.paymentError
          { destination := destinationId, asset := Asset.native, amount := amount } = none →
      sdk.memoTextError offerId = none →
      sdk.buildError (paymentBuilder
          { destinationId := destinationId, sourceKeys := sourceKeys
            amount := amount, offerId := offerId } sourceAccount) = none →
      (sdk.signError (paymentBuilder
          { destinationId := destinationId, sourceKeys := sourceKeys
            amount := amount, offerId := offerId } sourceAccount).build sourceKeys = none →
        (makePayment sdk server destinationId sourceKeys amount offerId w).1.module.transaction
          = some ((paymentBuilder
              { destinationId := destinationId, sourceKeys := sourceKeys
                amount := amount, offerId := offerId } sourceAccount).build.sign
              sdk sourceKeys)) ∧
      (sdk.signError (paymentBuilder
          { destinationId := destinationId, sourceKeys := sourceKeys
            amount := amount, offerId := offerId } sourceAccount).build sourceKeys ≠ none →
        (makePayment sdk server destinationId sourceKeys amount offerId w).1.module.transaction
          = some (paymentBuilder
              { destinationId := destinationId, sourceKeys := sourceKeys
                amount := amount, offerId := offerId } sourceAccount).build)) ∧
    ((¬ ∃ destAccount sourceAccount,
        (server.loadAccount w.net destinationId).1 = Reply.fulfilled destAccount ∧
        (server.loadAccount (server.loadAccount w.net destinationId).2
            sourceKeys.publicKey).1 = Reply.fulfilled sourceAccount ∧
        sdk.paymentError
            { destination := destinationId, asset := Asset.native, amount := amount } = none ∧
        sdk.memoTextError offerId = none ∧
        sdk.buildError (paymentBuilder
            { destinationId := destinationId, sourceKeys := sourceKeys
              amount := amount, offerId := offerId } sourceAccount) = none) →
      (makePayment sdk server destinationId sourceKeys amount offerId w).1.module.transaction
        = w.module.transaction) := by
  constructor
  · intro a1 a2 h1 h2 hp hm hb
    constructor
    · intro hs
      rw [makePayment_of_accepts sdk server destinationId sourceKeys amount offerId w
        a1 a2 h1 h2 ⟨hp, hm, hb, hs⟩]
      rcases (server.submitTransaction
          (server.loadAccount (server.loadAccount w.net destinationId).2
            sourceKeys.publicKey).2
          (signedPayment sdk ⟨destinationId, sourceKeys, amount, offerId⟩ a2)).1
        with r | e3 | x3 | _ <;> simp [submitSettled, catchAll, signedPayment]
    · intro hs
      rcases hs' : sdk.signError
          (paymentBuilder ⟨destinationId, sourceKeys, amount, offerId⟩ a2).build
          sourceKeys with _ | e
      · exact absurd hs' hs
      · simp [makePayment, start, destinationLoaded, senderLoaded, h1, h2, hp, hm, hb,
          hs', catchAll, Phase.outcome]
  · intro hno
    rcases h1 : (server.loadAccount w.net destinationId).1 with a1 | e1 | x1 | _
    · rcases h2 : (server.loadAccount (server.loadAccount w.net destinationId).2
          sourceKeys.publicKey).1 with a2 | e2 | x2 | _
      · rcases hp : sdk.paymentError
            { destination := destinationId, asset := Asset.native, amount := amount } with _ | e
        · rcases hm : sdk.memoTextError offerId with _ | e
          · rcases hb : sdk.buildError
                (paymentBuilder ⟨destinationId, sourceKeys, amount, offerId⟩ a2) with _ | e
            · exact absurd ⟨a1, a2, h1, h2, hp, hm, hb⟩ hno
            · simp [makePayment, start, destinationLoaded, senderLoaded, h1, h2, hp, hm, hb,
                catchAll, Phase.outcome]
          · simp [makePayment, start, destinationLoaded, senderLoaded, h1, h2, hp, hm,
              catchAll, Phase.outcome]
        · simp [makePayment, start, destinationLoaded, senderLoaded, h1, h2, hp,
            catchAll, Phase.outcome]
      · simp [makePayment, start, destinationLoaded, senderLoaded, h1, h2,
          catchAll, Phase.outcome]
      · simp [makePayment, start, destinationLoaded, senderLoaded, h1, h2,
          catchAll, Phase.outcome]
      · simp [makePayment, start, destinationLoaded, senderLoaded, h1, h2,
          catchAll, Phase.outcome]
    · by_cases hnf : e1.isNotFoundError = true <;>
        simp [makePayment, start, destinationLoaded, h1, hnf, catchAll, Phase.outcome]
    · simp [makePayment, start, destinationLoaded, h1, catchAll, Phase.outcome]
    · simp [makePayment, start, destinationLoaded, h1, catchAll, Phase.outcome]

/-- With no signing in the trace the variable holds its initial value; otherwise it
holds what the last signing of the trace left: the signed transaction, or the unsigned
one when the signing threw. -/
theorem variable_of_trace (sdk : Sdk) (m : Module) (ticks : List Tick) :
    ((∀ i t k, (i, Event.made (Call.sign t k))
          ∉ (runTicks sdk (System.initial m) ticks).trace) →
      (runTicks sdk (System.initial m) ticks).module.transaction = m.transaction) ∧
    (∀ before i t k later,
      (runTicks sdk (System.initial m) ticks).trace
        = before ++ (i, Event.made (Call.sign t k)) :: later →
      (∀ e, e ∈ later → ∀ t' k', e.2 ≠ Event.made (Call.sign t' k')) →
      (sdk.signError t k = none →
        (runTicks sdk (System.initial m) ticks).module.transaction
          = some (t.sign sdk k)) ∧
      (sdk.signError t k ≠ none →
        (runTicks sdk (System.initial m) ticks).module.transaction = some t)) := by
  have hE := (runTicks_coherent sdk m ticks).2.2.2.2
  constructor
  · intro hno
    rw [hE]
    apply lastWritten_of_no_sign
    intro e he t k heq
    obtain ⟨⟨i, e'⟩, hmem, rfl⟩ := List.mem_map.1 he
    simp only at heq
    subst heq
    exact hno i t k hmem
  · intro before i t k later htrace hlater
    have hlast : lastWritten sdk m.transaction
        ((runTicks sdk (System.initial m) ticks).trace.map (fun e => e.2))
        = (match sdk.signError t k with
           | none => some (t.sign sdk k)
           | some _ => some t) := by
      rw [htrace, List.map_append, lastWritten_append, List.map_cons]
      have hstep : ∀ v, lastWritten sdk v
          (Event.made (Call.sign t k) :: later.map (fun e => e.2))
          = lastWritten sdk
              (match sdk.signError t k with
               | none => some (t.sign sdk k)
               | some _ => some t)
              (later.map (fun e => e.2)) := fun _ => rfl
      rw [hstep]
      apply lastWritten_of_no_sign
      intro e he t' k' heq
      obtain ⟨e', hmem, rfl⟩ := List.mem_map.1 he
      exact hlater e' hmem t' k' heq
    rw [hE, hlast]
    constructor
    · intro hs
      rw [hs]
    · intro hs
      cases hsig : sdk.signError t k with
      | none => exact absurd hsig hs
      | some e => rfl

/-- The tick that delivers the sender account to a waiting call whose payment
operation, memo and build do not throw leaves the transaction built by that call in
the variable: signed, or unsigned when the signing throws. -/
theorem variable_after_build (sdk : Sdk) (m : Module) (ticks : List Tick) (i : Nat)
    (c : CallState) (sourceAccount : Account)
    (hc : (runTicks sdk (System.initial m) ticks).running[i]? = some c)
    (hph : c.phase = Phase.awaitingSender)
    (hp : sdk.paymentError
      { destination := c.args.destinationId, asset := Asset.native
        amount := c.args.amount } = none)
    (hm : sdk.memoTextError c.args.offerId = none)
    (hb : sdk.buildError (paymentBuilder c.args sourceAccount) = none) :
    (sdk.signError (paymentBuilder c.args sourceAccount).build c.args.sourceKeys = none →
      (runTicks sdk (System.initial m)
          (ticks ++ [Tick.account i (Reply.fulfilled sourceAccount)])).module.transaction
        = some ((paymentBuilder c.args sourceAccount).build.sign sdk c.args.sourceKeys)) ∧
    (sdk.signError (paymentBuilder c.args sourceAccount).build c.args.sourceKeys ≠ none →
      (runTicks sdk (System.initial m)
          (ticks ++ [Tick.account i (Reply.fulfilled sourceAccount)])).module.transaction
        = some (paymentBuilder c.args sourceAccount).build) := by
  have hrun : runTicks sdk (System.initial m)
        (ticks ++ [Tick.account i (Reply.fulfilled sourceAccount)])
      = (runTicks sdk (System.initial m) ticks).record i c.args
          (Event.account (Reply.fulfilled sourceAccount))
          (senderLoaded sdk c.args (Reply.fulfilled sourceAccount)
            (runTicks sdk (System.initial m) ticks).module) := by
    simp [runTicks, List.foldl_append, tick, Reply.isNever]
    simp only [runTicks] at hc
    rw [hc]
    simp only [hph]
  rw [hrun]
  constructor
  · intro hs
    simp only [System.record]
    rw [senderLoaded_of_accepts sdk c.args sourceAccount _ ⟨hp, hm, hb, hs⟩]
    rfl
  · intro hs
    cases hsig : sdk.signError (paymentBuilder c.args sourceAccount).build
        c.args.sourceKeys with
    | none => exact absurd hsig hs
    | some e => simp [System.record, senderLoaded, hp, hm, hb, hsig, catchAll]

/-- C10, the claim as stated, fails twice.  With a missing destination the call
settles (rejected), builds nothing, and the variable still holds the transaction that
an earlier call left there.  And with two calls in flight (`sampleSchedule` up to the
end of the submission of call 1), call 1 has built its transaction and has settled,
while the variable holds the transaction built by call 0. -/
theorem transaction_overwritten_counterexample :
    ((makePayment permissiveSdk ledgerServer "GHOST" sampleKeys "100" "offer-42"
        (staleWorld sampleLedger)).2 = Outcome.rejected destinationMissing ∧
     (makePayment permissiveSdk ledgerServer "GHOST" sampleKeys "100" "offer-42"
        (staleWorld sampleLedger)).1.calls = [Call.loadAccount "GHOST"] ∧
     (staleWorld sampleLedger).module.transaction = some staleTransaction ∧
     (makePayment permissiveSdk ledgerServer "GHOST" sampleKeys "100" "offer-42"
        (staleWorld sampleLedger)).1.module.transaction = some staleTransaction) ∧
    (((runTicks permissiveSdk (System.initial { transaction := none, console := [] })
          (sampleSchedule.take 7)).running.map (fun c => c.phase))[1]?
        = some (Phase.settled (Outcome.rejected timedOut)) ∧
     (1, Event.made (Call.build (paymentBuilder
          { destinationId := "DEST2", sourceKeys := otherKeys
            amount := "7", offerId := "offer-43" }
          { accountId := "BUYER2", sequence := 12 })))
        ∈ (runTicks permissiveSdk (System.initial { transaction := none, console := [] })
            (sampleSchedule.take 7)).trace ∧
     (runTicks permissiveSdk (System.initial { transaction := none, console := [] })
          (sampleSchedule.take 7)).module.transaction
        = some (signedPayment permissiveSdk
            { destinationId := "DEST1", sourceKeys := sampleKeys
              amount := "100", offerId := "offer-42" }
            { accountId := "SENDER", sequence := 41 }) ∧
     (runTicks permissiveSdk (System.initial { transaction := none, console := [] })
          (sampleSchedule.take 7)).module.transaction
        ≠ some (signedPayment permissiveSdk
            { destinationId := "DEST2", sourceKeys := otherKeys
              amount := "7", offerId := "offer-43" }
            { accountId := "BUYER2", sequence := 12 })) := by
  decide

/-- C10 as amended.  The module-level variable is written only in the sender-load
callback of a call that got as far as a build that did not throw.
(1) A call that runs alone: when both loads are fulfilled and the payment operation,
the memo and the build do not throw, the variable afterwards holds the transaction
built by this call, whatever it held before (signed with `sourceKeys`, or unsigned when
the signing threw); in every other case it keeps the value it held before the call.
(2) In every schedule of any number of calls: whoever signs is a call whose two loads
were fulfilled and whose payment operation, memo and build did not throw, and it signs
its own build with its own keys.
(3) The tick that delivers the sender account to such a call leaves the transaction
built by that call in the variable.
(4) At the end of every schedule the variable holds its initial value when no call has
signed, and otherwise what the most recent signing left: that transaction with the
signature, or without it when the signing threw. -/
theorem transaction_overwritten_by_successful_build {σ : Type} (sdk : Sdk) (server : Server σ)
    (destinationId : String) (sourceKeys : Keypair) (amount offerId : String) (w : World σ)
    (m : Module) (ticks : List Tick) :
    (
    (∀ destAccount sourceAccount,
      (server.loadAccount w.net destinationId).1 = Reply.fulfilled destAccount →
      (server.loadAccount (server.loadAccount w.net destinationId).2
          sourceKeys.publicKey).1 = Reply.fulfilled sourceAccount →
      sdk.paymentError
          { destination := destinationId, asset := Asset.native, amount := amount } = none →
      sdk.memoTextError offerId = none →
      sdk.buildError (paymentBuilder
          { destinationId := destinationId, sourceKeys := sourceKeys
            amount := amount, offerId := offerId } sourceAccount) = none →
      (sdk.signError (paymentBuilder
          { destinationId := destinationId, sourceKeys := sourceKeys
            amount := amount, offerId := offerId } sourceAccount).build sourceKeys = none →
        (makePayment sdk server destinationId sourceKeys amount offerId w).1.module.transaction
          = some ((paymentBuilder
              { destinationId := destinationId, sourceKeys := sourceKeys
                amount := amount, offerId := offerId } sourceAccount).build.sign
              sdk sourceKeys)) ∧
      (sdk.signError (paymentBuilder
          { destinationId := destinationId, sourceKeys := sourceKeys
            amount := amount, offerId := offerId } sourceAccount).build sourceKeys ≠ none →
        (makePayment sdk server destinationId sourceKeys amount offerId w).1.module.transaction
          = some (paymentBuilder
              { destinationId := destinationId, sourceKeys := sourceKeys
                amount := amount, offerId := offerId } sourceAccount).build)) ∧
    ((¬ ∃ destAccount sourceAccount,
        (server.loadAccount w.net destinationId).1 = Reply.fulfilled destAccount ∧
        (server.loadAccount (server.loadAccount w.net destinationId).2
            sourceKeys.publicKey).1 = Reply.fulfilled sourceAccount ∧
        sdk.paymentError
            { destination := destinationId, asset := Asset.native, amount := amount } = none ∧
        sdk.memoTextError offerId = none ∧
        sdk.buildError (paymentBuilder
            { destinationId := destinationId, sourceKeys := sourceKeys
              amount := amount, offerId := offerId } sourceAccount) = none) →
      (makePayment sdk server destinationId sourceKeys amount offerId w).1.module.transaction
        = w.module.transaction)
    ) ∧
    (∀ i t k, (i, Event.made (Call.sign t k))
          ∈ (runTicks sdk (System.initial m) ticks).trace →
      ∃ a d sourceAccount,
        invokedWith ticks i = some a ∧
        Tick.account i (Reply.fulfilled sourceAccount) ∈ ticks ∧
        (callEvents (runTicks sdk (System.initial m) ticks).trace i).take 4
          = [Event.made (Call.loadAccount a.destinationId),
             Event.account (Reply.fulfilled d),
             Event.made (Call.loadAccount a.sourceKeys.publicKey),
             Event.account (Reply.fulfilled sourceAccount)] ∧
        sdk.paymentError
          { destination := a.destinationId, asset := Asset.native, amount := a.amount }
          = none ∧
        sdk.memoTextError a.offerId = none ∧
        sdk.buildError (paymentBuilder a sourceAccount) = none ∧
        t = (paymentBuilder a sourceAccount).build ∧
        k = a.sourceKeys) ∧
    (∀ i c sourceAccount,
      (runTicks sdk (System.initial m) ticks).running[i]? = some c →
      c.phase = Phase.awaitingSender →
      sdk.paymentError
        { destination := c.args.destinationId, asset := Asset.native
          amount := c.args.amount } = none →
      sdk.memoTextError c.args.offerId = none →
      sdk.buildError (paymentBuilder c.args sourceAccount) = none →
      (sdk.signError (paymentBuilder c.args sourceAccount).build c.args.sourceKeys = none →
        (runTicks sdk (System.initial m)
            (ticks ++ [Tick.account i (Reply.fulfilled sourceAccount)])).module.transaction
          = some ((paymentBuilder c.args sourceAccount).build.sign sdk c.args.sourceKeys)) ∧
      (sdk.signError (paymentBuilder c.args sourceAccount).build c.args.sourceKeys ≠ none →
        (runTicks sdk (System.initial m)
            (ticks ++ [Tick.account i (Reply.fulfilled sourceAccount)])).module.transaction
          = some (paymentBuilder c.args sourceAccount).build)) ∧
    ((∀ i t k, (i, Event.made (Call.sign t k))
          ∉ (runTicks sdk (System.initial m) ticks).trace) →
      (runTicks sdk (System.initial m) ticks).module.transaction = m.transaction) ∧
    (∀ before i t k later,
      (runTicks sdk (System.initial m) ticks).trace
        = before ++ (i, Event.made (Call.sign t k)) :: later →
      (∀ e, e ∈ later → ∀ t' k', e.2 ≠ Event.made (Call.sign t' k')) →
      (sdk.signError t k = none →
        (runTicks sdk (System.initial m) ticks).module.transaction
          = some (t.sign sdk k)) ∧
      (sdk.signError t k ≠ none →
        (runTicks sdk (System.initial m) ticks).module.transaction = some t)) := by
  refine ⟨makePayment_transaction sdk server destinationId sourceKeys amount offerId w,
    ?_, ?_, (variable_of_trace sdk m ticks).1, (variable_of_trace sdk m ticks).2⟩
  · intro i t k hmem
    obtain ⟨a, p, ha, hstory⟩ := call_of_event sdk m ticks i _ hmem
    obtain ⟨d, acct, post, hp, hm, hb, ht, hk, hes, -⟩ :=
      story_of_sign sdk a p _ t k hstory ((mem_callEvents _ _ _).2 hmem)
    have hacct : (i, Event.account (Reply.fulfilled acct))
        ∈ (runTicks sdk (System.initial m) ticks).trace := by
      apply (mem_callEvents _ _ _).1
      rw [hes]
      simp [pathToSubmit]
    refine ⟨a, d, acct, ha, (runTicks_coherent sdk m ticks).2.2.2.1 i _ hacct, ?_,
      hp, hm, hb, ht, hk⟩
    rw [hes]
    rfl
  · intro i c acct hc hph hp hm hb
    exact variable_after_build sdk m ticks i c acct hc hph hp hm hb

/-- C10 as amended, instantiated: alone on the sample ledger, the payment to "DEST1"
replaces the stale transaction by the signed payment of this call, and a payment whose
memo throws leaves the stale transaction in place; in `sampleSchedule` call 1 signs its
own build, made on the reply to its own sender load. -/
theorem transaction_overwritten_by_successful_build_witness :
    (makePayment permissiveSdk ledgerServer "DEST1" sampleKeys "100" "offer-42"
        (staleWorld sampleLedger)).1.module.transaction
      = some ((paymentBuilder
          { destinationId := "DEST1", sourceKeys := sampleKeys
            amount := "100", offerId := "offer-42" }
          { accountId := "SENDER", sequence := 41 }).build.sign permissiveSdk sampleKeys) ∧
    (makePayment strictMemoSdk ledgerServer "DEST1" sampleKeys "100" "offer-42"
        (staleWorld sampleLedger)).1.module.transaction
      = (staleWorld sampleLedger).module.transaction ∧
    ∃ a d sourceAccount,
      invokedWith sampleSchedule 1 = some a ∧
      Tick.account 1 (Reply.fulfilled sourceAccount) ∈ sampleSchedule ∧
      (callEvents (runTicks permissiveSdk
          (System.initial { transaction := none, console := [] }) sampleSchedule).trace 1).take 4
        = [Event.made (Call.loadAccount a.destinationId),
           Event.account (Reply.fulfilled d),
           Event.made (Call.loadAccount a.sourceKeys.publicKey),
           Event.account (Reply.fulfilled sourceAccount)] ∧
      (paymentBuilder
          { destinationId := "DEST2", sourceKeys := otherKeys
            amount := "7", offerId := "offer-43" }
          { accountId := "BUYER2", sequence := 12 }).build
        = (paymentBuilder a sourceAccount).build ∧
      otherKeys = a.sourceKeys :=
  ⟨(((transaction_overwritten_by_successful_build permissiveSdk ledgerServer "DEST1"
        sampleKeys "100" "offer-42" (staleWorld sampleLedger)
        { transaction := none, console := [] } sampleSchedule).1).1
      { accountId := "DEST1", sequence := 7 } { accountId := "SENDER", sequence := 41 }
      (by decide) (by decide) (by simp [permissiveSdk]) (by simp [permissiveSdk])
      (by simp [permissiveSdk])).1 (by simp [permissiveSdk]),
   ((transaction_overwritten_by_successful_build strictMemoSdk ledgerServer "DEST1"
        sampleKeys "100" "offer-42" (staleWorld sampleLedger)
        { transaction := none, console := [] } sampleSchedule).1).2
      (by simp [strictMemoSdk]),
   match (transaction_overwritten_by_successful_build permissiveSdk ledgerServer "DEST1"
        sampleKeys "100" "offer-42" (staleWorld sampleLedger)
        { transaction := none, console := [] } sampleSchedule).2.1 1
        (paymentBuilder
          { destinationId := "DEST2", sourceKeys := otherKeys
            amount := "7", offerId := "offer-43" }
          { accountId := "BUYER2", sequence := 12 }).build otherKeys (by decide) with
   | ⟨a, d, acct, ha, ht, hes, _, _, _, hbuilt, hk⟩ => ⟨a, d, acct, ha, ht, hes, hbuilt, hk⟩⟩

end StellarLib
